import Mathlib

/-!
# DHCP server configuration generator (`src/dhcp.c`)

A shallow embedding of `dhcp.c`: the configuration generator
(`get_if_addr_octet`, `format_route`, `write_dns`, `write_routes`, `write_dhcpd_config`)
and the two sequences `start_dhcpd` and `stop_dhcpd`, followed by the properties proved
about them.

Conventions of the embedding.

* An `unsigned char` is an `Octet` (`Fin 256`); an `int` that only counts is a `Nat`,
  an `int` that is only tested for being non-zero is an `Int`.
* A `FILE *` opened for writing is the text written so far (a `String`);
  `fprintf (file, ...)` returns the text extended by the formatted output.
* A C string (`char *`) read by the code is a text (a `String`, without the character of
  code 0); its bytes are the UTF-8 encoding of the text (`c_bytes`).  A buffer filled by
  `snprintf (buf, size, ...)` is the list of the bytes stored before the terminator: the
  first `size - 1` bytes of the formatted output, which may end inside a character.
  A command passed to `system` is such a list of bytes.
* `%u` is the decimal rendering `Nat.repr`.
* The library calls `fopen`, `getifaddrs` and `system` are parameters giving their outcome;
  `start_dhcpd` and `stop_dhcpd` return, with their value, the trace of the steps attempted.
-/

namespace Dhcp

/-! ## Data model -/

/-- An `unsigned char`. -/
abbrev Octet := Fin 256

/-- The four bytes of a `struct in_addr` in memory order, which is network order: byte `0`
is the first octet of the dotted form.  This is what the casts
`(unsigned char *)&...->sin_addr.s_addr` of `format_route` read, and it is the type of the
`unsigned char *if_addr` that `get_if_addr_octet` returns. -/
abbrev in_addr := Fin 4 → Octet

/-- The 32-bit word `s_addr` made of the four bytes (little-endian host order; the
comparisons made by the code, `==` and `!= 0`, have the same outcome in either byte order). -/
def s_addr (a : in_addr) : Nat :=
  (a 0).val + 256 * (a 1).val + 65536 * (a 2).val + 16777216 * (a 3).val

/-- The constant `AF_INET`. -/
def AF_INET : Nat := 2

/-- The fields of a `struct sockaddr` viewed as `struct sockaddr_in` that the code reads. -/
structure sockaddr_in where
  sa_family : Nat
  sin_addr : in_addr
  deriving DecidableEq

/-- The fields of `struct rtentry` that hold addresses. -/
structure rtentry where
  rt_dst : sockaddr_in
  rt_genmask : sockaddr_in
  rt_gateway : sockaddr_in
  deriving DecidableEq

/-- Modelled from the spec: the `route_dest` accessor of the tunnel headers (not part of
`dhcp.c`): the destination address of a route entry. -/
def route_dest (route : rtentry) : in_addr := route.rt_dst.sin_addr

/-- Modelled from the spec: the part of the tunnel's `ipv4` state (declared in the tunnel
headers, not in `dhcp.c`) that `dhcp.c` reads.  The array `split_rt` with
its element count `split_routes` is the list `split_rt`; see `split_routes`. -/
structure ipv4_config where
  ns1_addr : in_addr
  ns2_addr : in_addr
  dns_suffix : Option String
  split_rt : List rtentry
  gtw_rt : rtentry

/-- Modelled from the spec: the part of the tunnel's `config` (declared in the tunnel
headers, not in `dhcp.c`) that `dhcp.c` reads. -/
structure vpn_config where
  dhcpd_ifname : String
  set_dns : Int
  set_routes : Int

/-- Modelled from the spec: `struct tunnel` (declared in the tunnel headers, not in
`dhcp.c`), restricted to what `dhcp.c` reads. -/
structure tunnel where
  config : vpn_config
  ipv4 : ipv4_config

/-- The element count `tunnel->ipv4.split_routes` of the array `split_rt`. -/
def split_routes (tun : tunnel) : Nat := tun.ipv4.split_rt.length

/-- One node of the list returned by `getifaddrs`: the interface name and its address,
`none` for a `NULL` `ifa_addr`. -/
structure ifaddrs where
  ifa_name : String
  ifa_addr : Option sockaddr_in

/-! ## Formatting primitives -/

/-- The conversion `%u` of `printf`. -/
def u (n : Nat) : String := Nat.repr n

/-- The bytes of a text held in a C string, without the terminator: its UTF-8 encoding. -/
def c_bytes (text : String) : List UInt8 := text.data.flatMap String.utf8EncodeChar

/-- The effect of `snprintf (buf, size, ...)` on `buf`, given the full formatted output:
the bytes stored before the terminator, which are the first `size - 1` bytes of the
output. -/
def snprintf (size : Nat) (formatted : String) : List UInt8 :=
  (c_bytes formatted).take (size - 1)

/-- The text that `%s` prints for a buffer of one-byte characters (codes below 128): one
character for each byte.  It is applied to the buffer of `format_route`, which holds
digits, commas and blanks. -/
def c_text (bytes : List UInt8) : String := ⟨bytes.map (fun b => Char.ofNat b.toNat)⟩

/-- A text of one-byte characters (codes below 128): each character is one byte of the C
string. -/
def one_byte_text (text : String) : Prop := ∀ c ∈ text.data, c.toNat < 128

/-- The library function `inet_ntop (AF_INET, ...)`: the dotted-decimal form.  Its result
has at most 15 characters and so fits the `INET_ADDRSTRLEN` (16) bytes the code passes. -/
def inet_ntop (a : in_addr) : String :=
  u (a 0).val ++ "." ++ u (a 1).val ++ "." ++ u (a 2).val ++ "." ++ u (a 3).val

/-! ## `get_if_addr_octet` -/

/-- The `for (ifa = ifaddr; ifa != NULL; ifa = ifa->ifa_next)` loop of
`get_if_addr_octet`. -/
def get_if_addr_octet_loop (dhcpd_ifname : String) : List ifaddrs → Option in_addr
  | [] => none
  | ifa :: ifa_next =>
    match ifa.ifa_addr with
    | none => get_if_addr_octet_loop dhcpd_ifname ifa_next
    | some addr =>
      if addr.sa_family ≠ AF_INET ∨ ifa.ifa_name ≠ dhcpd_ifname then
        get_if_addr_octet_loop dhcpd_ifname ifa_next
      else some addr.sin_addr

/-- The function `get_if_addr_octet`; `getifaddrs` is the outcome of the library call
(`none` when it returns `-1`). -/
def get_if_addr_octet (getifaddrs : Option (List ifaddrs)) (tun : tunnel) : Option in_addr :=
  match getifaddrs with
  | none => none
  | some ifaddr => get_if_addr_octet_loop tun.config.dhcpd_ifname ifaddr

/-! ## `format_route` -/

/-- The inner loop `while (byte) { prefix_length += byte & 1; byte >>= 1; }`, run for at
most `fuel` iterations.  `count_bits_fuel` shows that 8 iterations always reach the exit
`byte == 0`. -/
def count_bits : Nat → Nat → Nat → Nat
  | 0, _, prefix_length => prefix_length
  | fuel + 1, byte, prefix_length =>
    if byte ≠ 0 then count_bits fuel (byte >>> 1) (prefix_length + (byte &&& 1))
    else prefix_length

/-- The value of `prefix_length` after the loop `for (int i = 0; i < 4; i++)` of
`format_route`. -/
def prefix_length (route : rtentry) : Nat :=
  let mask := route.rt_genmask.sin_addr
  ([0, 1, 2, 3] : List (Fin 4)).foldl
    (fun prefix_length i => count_bits 8 (mask i).val prefix_length) 0

/-- The function `format_route`: the text held by the static buffer `output` it returns. -/
def format_route (route : rtentry) (if_addr : in_addr) : String :=
  let prefix_length := prefix_length route
  let dst := route.rt_dst.sin_addr
  if prefix_length > 24 then
    c_text (snprintf 60 (u prefix_length ++ ", " ++ u (dst 0).val ++ ", " ++ u (dst 1).val ++ ", "
      ++ u (dst 2).val ++ ", " ++ u (dst 3).val ++ ", "
      ++ u (if_addr 0).val ++ ", " ++ u (if_addr 1).val ++ ", " ++ u (if_addr 2).val ++ ", "
      ++ u (if_addr 3).val))
  else if prefix_length > 16 then
    c_text (snprintf 60 (u prefix_length ++ ", " ++ u (dst 0).val ++ ", " ++ u (dst 1).val ++ ", "
      ++ u (dst 2).val ++ ", "
      ++ u (if_addr 0).val ++ ", " ++ u (if_addr 1).val ++ ", " ++ u (if_addr 2).val ++ ", "
      ++ u (if_addr 3).val))
  else if prefix_length ≥ 8 then
    c_text (snprintf 60 (u prefix_length ++ ", " ++ u (dst 0).val ++ ", " ++ u (dst 1).val ++ ", "
      ++ u (if_addr 0).val ++ ", " ++ u (if_addr 1).val ++ ", " ++ u (if_addr 2).val ++ ", "
      ++ u (if_addr 3).val))
  else
    c_text (snprintf 60 (u prefix_length ++ ", " ++ u (dst 0).val ++ ", "
      ++ u (if_addr 0).val ++ ", " ++ u (if_addr 1).val ++ ", " ++ u (if_addr 2).val ++ ", "
      ++ u (if_addr 3).val))

/-! ## `write_dns` -/

/-- The function `write_dns`: the text of `file` after the call. -/
def write_dns (file : String) (tun : tunnel) : String :=
  let file :=
    if s_addr tun.ipv4.ns1_addr ≠ 0 then
      let ns1 := inet_ntop tun.ipv4.ns1_addr
      let file := file ++ "  option domain-name-servers"
      let file := file ++ " " ++ ns1
      let file :=
        if s_addr tun.ipv4.ns2_addr ≠ 0 then
          let ns2 := inet_ntop tun.ipv4.ns2_addr
          file ++ ", " ++ ns2
        else file
      file ++ ";\n"
    else file
  match tun.ipv4.dns_suffix with
  | some dns_suffix => file ++ "  option domain-search \"" ++ dns_suffix ++ "\";\n"
  | none => file

/-! ## `write_routes` -/

/-- The first loop of `write_routes` (the `rfc3442-classless-static-routes` option), run
over the remaining routes of `split_rt`; the state is the flag `first` and the text of
`file`. -/
def rfc3442_loop (gtw_rt : rtentry) (if_addr : in_addr) :
    List rtentry → Bool → String → Bool × String
  | [], first, file => (first, file)
  | route :: rest, first, file =>
    if s_addr (route_dest route) = s_addr (route_dest gtw_rt) then
      rfc3442_loop gtw_rt if_addr rest first file
    else if first then
      rfc3442_loop gtw_rt if_addr rest false
        (file ++ "  option rfc3442-classless-static-routes " ++ format_route route if_addr)
    else
      rfc3442_loop gtw_rt if_addr rest first
        (file ++ ",\n                                         " ++ format_route route if_addr)

/-- The second loop of `write_routes` (the `ms-classless-static-routes` option), run over
the remaining routes of `split_rt`; the state is the flag `first` and the text of `file`. -/
def ms_loop (gtw_rt : rtentry) (if_addr : in_addr) :
    List rtentry → Bool → String → Bool × String
  | [], first, file => (first, file)
  | route :: rest, first, file =>
    if s_addr (route_dest route) = s_addr (route_dest gtw_rt) then
      ms_loop gtw_rt if_addr rest first file
    else if first then
      ms_loop gtw_rt if_addr rest false
        (file ++ "  option ms-classless-static-routes " ++ format_route route if_addr)
    else
      ms_loop gtw_rt if_addr rest first
        (file ++ ",\n                                    " ++ format_route route if_addr)

/-- The function `write_routes`: the text of `file` after the call. -/
def write_routes (file : String) (tun : tunnel) (if_addr : in_addr) : String :=
  if split_routes tun ≠ 0 then
    let (first, file) := rfc3442_loop tun.ipv4.gtw_rt if_addr tun.ipv4.split_rt true file
    if !first then
      let file := file ++ ";\n"
      let (_, file) := ms_loop tun.ipv4.gtw_rt if_addr tun.ipv4.split_rt true file
      file ++ ";\n"
    else file
  else
    file ++ "  option routers " ++ u (if_addr 0).val ++ "." ++ u (if_addr 1).val ++ "."
      ++ u (if_addr 2).val ++ "." ++ u (if_addr 3).val ++ ";\n"

/-! ## `write_dhcpd_config` -/

/-- The function `write_dhcpd_config`.  `fopen_ok` tells whether `fopen` returned a stream
and `getifaddrs` is the outcome of the library call made by `get_if_addr_octet`.  The
result is the return value and the text written to the stream (`none` when no stream was
opened). -/
def write_dhcpd_config (fopen_ok : Bool) (getifaddrs : Option (List ifaddrs))
    (tun : tunnel) : Int × Option String :=
  if !fopen_ok then (-1, none)
  else
    let file := ""
    match get_if_addr_octet getifaddrs tun with
    | none => (-1, some file)
    | some if_addr =>
      let file := file
        ++ "option rfc3442-classless-static-routes code 121 = array of integer 8;\n"
        ++ "option ms-classless-static-routes code 249 = array of integer 8;\n\n"
        ++ "subnet " ++ u (if_addr 0).val ++ "." ++ u (if_addr 1).val ++ "."
        ++ u (if_addr 2).val ++ ".0 netmask 255.255.255.0 \x7b\n"
        ++ "  range " ++ u (if_addr 0).val ++ "." ++ u (if_addr 1).val ++ "."
        ++ u (if_addr 2).val ++ ".100 " ++ u (if_addr 0).val ++ "." ++ u (if_addr 1).val
        ++ "." ++ u (if_addr 2).val ++ ".200;\n"
      let file := if tun.config.set_dns ≠ 0 then write_dns file tun else file
      let file := if tun.config.set_routes ≠ 0 then write_routes file tun if_addr else file
      let file := file ++ "\x7d\n"
      (0, some file)

/-! ## `start_dhcpd` and `stop_dhcpd` -/

/-- The constant `IF_NAMESIZE` of `<net/if.h>`. -/
def IF_NAMESIZE : Nat := 16

/-- An external step attempted by `start_dhcpd` or `stop_dhcpd`: the call of
`write_dhcpd_config`, or a call of `system` with the bytes of its command line. -/
inductive step where
  | write_dhcpd_config : step
  | system (command : List UInt8) : step
  deriving DecidableEq

/-- The buffer `if_command` of `start_dhcpd` after its `snprintf`. -/
def up_command (tun : tunnel) : List UInt8 :=
  snprintf (IF_NAMESIZE + 12) ("ifconfig " ++ tun.config.dhcpd_ifname ++ " up")

/-- The buffer `if_command` of `stop_dhcpd` after its `snprintf`. -/
def down_command (tun : tunnel) : List UInt8 :=
  snprintf (IF_NAMESIZE + 14) ("ifconfig " ++ tun.config.dhcpd_ifname ++ " down")

/-- The function `start_dhcpd`.  `fopen_ok` and `getifaddrs` are as in
`write_dhcpd_config`; `system` gives the return value of the library call `system` for the
bytes of a command line.  The result is the return value and the trace of the steps
attempted, in order. -/
def start_dhcpd (fopen_ok : Bool) (getifaddrs : Option (List ifaddrs))
    (system : List UInt8 → Int) (tun : tunnel) : Int × List step :=
  let trace := [step.write_dhcpd_config]
  if (write_dhcpd_config fopen_ok getifaddrs tun).1 ≠ 0 then (-1, trace)
  else
    let if_command := up_command tun
    let trace := trace ++ [step.system if_command]
    if system if_command ≠ 0 then (-1, trace)
    else
      let trace := trace ++ [step.system (c_bytes "rc-service dhcpd restart")]
      if system (c_bytes "rc-service dhcpd restart") ≠ 0 then (-1, trace)
      else (0, trace)

/-- The function `stop_dhcpd`; `system` gives the return value of the library call
`system` for the bytes of a command line.  The result is the return value and the trace
of the steps attempted, in order. -/
def stop_dhcpd (system : List UInt8 → Int) (tun : tunnel) : Int × List step :=
  let trace := [step.system (c_bytes "rc-service dhcpd stop")]
  if system (c_bytes "rc-service dhcpd stop") ≠ 0 then (-1, trace)
  else
    let if_command := down_command tun
    let trace := trace ++ [step.system if_command]
    if system if_command ≠ 0 then (-1, trace)
    else (0, trace)

/-! ## Specification-side definitions

These follow the wording of the specification and are what the code is compared with. -/

/-- The population count of an octet: the number of bit positions `0..7` that are set. -/
def popcount (b : Nat) : Nat := ((List.range 8).filter (fun i => b.testBit i)).length

/-- The number of significant destination octets the specification assigns to a prefix
length: 4 above 24, 3 above 16, 2 from 8 on, otherwise 1. -/
def spec_significant_octets (p : Nat) : Nat :=
  if p > 24 then 4 else if p > 16 then 3 else if p ≥ 8 then 2 else 1

/-- The sequence of values the specification lists for one entry: the prefix length, the
first significant octets of the destination, then the four octets of the router. -/
def spec_encode (route : rtentry) (router : in_addr) : List Nat :=
  let d := route.rt_dst.sin_addr
  prefix_length route ::
    (([d 0, d 1, d 2, d 3].take (spec_significant_octets (prefix_length route))).map Fin.val
      ++ [router 0, router 1, router 2, router 3].map Fin.val)

/-- The text of a sequence of values: their decimal forms joined by a comma and a blank. -/
def render (values : List Nat) : String := ", ".intercalate (values.map u)

/-- The number of comma-separated values of an encoded entry. -/
def emitted_values (entry : String) : Nat := entry.data.count ',' + 1

/-- Whether a route is left out of the encoded list: its destination is that of the
designated gateway route. -/
def excluded (gtw_rt route : rtentry) : Bool :=
  decide (route_dest route = route_dest gtw_rt)

/-- The split routes that survive the exclusion, in list order. -/
def kept_routes (tun : tunnel) : List rtentry :=
  tun.ipv4.split_rt.filter (fun route => !excluded tun.ipv4.gtw_rt route)

/-- The encoded entries of the surviving routes, in list order. -/
def kept_entries (tun : tunnel) (if_addr : in_addr) : List String :=
  (kept_routes tun).map (fun route => format_route route if_addr)

/-- The text between two entries of the `rfc3442-classless-static-routes` option. -/
def rfc3442_separator : String := ",\n                                         "

/-- The text between two entries of the `ms-classless-static-routes` option. -/
def ms_separator : String := ",\n                                    "

/-- A text contains a piece when the piece occurs in it as a run of consecutive
characters. -/
def text_contains (text piece : String) : Prop := piece.data <:+: text.data

/-- Containment is decidable. -/
instance (text piece : String) : Decidable (text_contains text piece) := by
  unfold text_contains; infer_instance

/-- No `e` is followed by an `r`, and the last character is not an `e`. -/
def no_er (l : List Char) : Prop := ¬ ['e', 'r'] <:+: l ∧ l.getLast? ≠ some 'e'

/-- The `domain-name-servers` line of the specification: none without a primary
nameserver, otherwise the primary and, if set, the secondary nameserver. -/
def nameservers_line (tun : tunnel) : String :=
  if tun.ipv4.ns1_addr = ![0, 0, 0, 0] then ""
  else "  option domain-name-servers " ++ inet_ntop tun.ipv4.ns1_addr
    ++ (if tun.ipv4.ns2_addr = ![0, 0, 0, 0] then "" else ", " ++ inet_ntop tun.ipv4.ns2_addr)
    ++ ";\n"

/-- The `domain-search` line of the specification: present when a search suffix is
configured. -/
def search_line (tun : tunnel) : String :=
  match tun.ipv4.dns_suffix with
  | some dns_suffix => "  option domain-search \"" ++ dns_suffix ++ "\";\n"
  | none => ""

/-- The lines of a text: the runs of characters between line breaks (the last one is
empty when the text ends with a line break). -/
def lines_of : List Char → List (List Char)
  | [] => [[]]
  | c :: cs =>
    if c = '\n' then [] :: lines_of cs
    else
      match lines_of cs with
      | [] => [[c]]
      | l :: ls => (c :: l) :: ls

/-- The text made of the given lines, each closed by a line break. -/
def join_lines (ls : List (List Char)) : List Char :=
  (ls.map (fun l => l ++ ['\n'])).flatten

/-- A line of the form `write_routes` gives to the two classless-static-routes options
inside the subnet block. -/
def is_classless_line (l : List Char) : Prop :=
  "  option rfc3442-classless-static-routes ".data <+: l
    ∨ "  option ms-classless-static-routes ".data <+: l

/-- Being such a line is decidable. -/
instance (l : List Char) : Decidable (is_classless_line l) := by
  unfold is_classless_line; infer_instance

/-- The characters `write_routes` can write: digits, letters, and a few signs. -/
def plain_char (c : Char) : Prop :=
  c.isDigit = true ∨ c.isAlpha = true ∨ c ∈ [' ', '-', ',', '.', ';', '\n']

/-- A text made of complete lines, none of which is a classless-static-routes option
line. -/
def plain_lines (text : List Char) : Prop :=
  ∃ ls, text = join_lines ls ∧ ∀ l ∈ ls, '\n' ∉ l ∧ ¬ is_classless_line l

/-- A line of the form `write_dns` gives to its two options inside the subnet block. -/
def is_dns_line (l : List Char) : Prop :=
  "  option domain-name-servers ".data <+: l ∨ "  option domain-search \"".data <+: l

/-- Being such a line is decidable. -/
instance (l : List Char) : Decidable (is_dns_line l) := by
  unfold is_dns_line; infer_instance

/-- A line of the form `write_routes` gives to its options inside the subnet block: the
`routers` option line, the first line of a classless-static-routes option, or a line that
continues such an option with a further entry, behind at least 36 blanks. -/
def is_routing_line (l : List Char) : Prop :=
  "  option routers ".data <+: l ∨ is_classless_line l ∨ List.replicate 36 ' ' <+: l

/-- Being such a line is decidable. -/
instance (l : List Char) : Decidable (is_routing_line l) := by
  unfold is_routing_line; infer_instance

/-- A line that opens a subnet block: `subnet ... \x7b`. -/
def is_subnet_line (l : List Char) : Prop := "subnet ".data <+: l ∧ " \x7b".data <:+ l

/-- Being such a line is decidable. -/
instance (l : List Char) : Decidable (is_subnet_line l) := by
  unfold is_subnet_line; infer_instance

/-- A text made of complete lines, each of which has the property `P`. -/
def lines_with (P : List Char → Prop) (text : List Char) : Prop :=
  ∃ ls, text = join_lines ls ∧ ∀ l ∈ ls, '\n' ∉ l ∧ P l

/-! ## Reading a generated subnet block back -/

/-- Reads the digits at the head of the text as a decimal number, continuing from `acc`;
returns the number and the text after it. -/
def read_number : List Char → Nat → Nat × List Char
  | [], acc => (acc, [])
  | c :: cs, acc =>
    if c.isDigit then read_number cs (acc * 10 + (c.toNat - '0'.toNat)) else (acc, c :: cs)

/-- A decimal number at the head of the text: at least one digit. -/
def parse_number (cs : List Char) : Option (Nat × List Char) :=
  match cs with
  | [] => none
  | c :: _ => if c.isDigit then some (read_number cs 0) else none

/-- Consumes the given fixed text at the head of the input. -/
def expect : List Char → List Char → Option (List Char)
  | [], cs => some cs
  | _ :: _, [] => none
  | l :: ls, c :: cs => if l = c then expect ls cs else none

/-- A dotted address `a.b.c.d` at the head of the text. -/
def parse_address (cs : List Char) : Option (List Nat × List Char) :=
  match parse_number cs with
  | none => none
  | some (a, cs) =>
    match expect ['.'] cs with
    | none => none
    | some cs =>
      match parse_number cs with
      | none => none
      | some (b, cs) =>
        match expect ['.'] cs with
        | none => none
        | some cs =>
          match parse_number cs with
          | none => none
          | some (c, cs) =>
            match expect ['.'] cs with
            | none => none
            | some cs =>
              match parse_number cs with
              | none => none
              | some (d, cs) => some ([a, b, c, d], cs)

/-- Reads a generated configuration back: after the two option declarations, the network
of the `subnet` line and the two endpoints of the `range` line. -/
def parse_subnet (text : String) : Option (List Nat × List Nat × List Nat) :=
  match expect ("option rfc3442-classless-static-routes code 121 = array of integer 8;\n"
      ++ "option ms-classless-static-routes code 249 = array of integer 8;\n\n"
      ++ "subnet ").data text.data with
  | none => none
  | some cs =>
    match parse_address cs with
    | none => none
    | some (network, cs) =>
      match expect " netmask 255.255.255.0 \x7b\n  range ".data cs with
      | none => none
      | some cs =>
        match parse_address cs with
        | none => none
        | some (low, cs) =>
          match expect " ".data cs with
          | none => none
          | some cs =>
            match parse_address cs with
            | none => none
            | some (high, cs) =>
              match expect ";\n".data cs with
              | none => none
              | some _ => some (network, low, high)

/-- The text `write_dhcpd_config` writes before the optional DNS and routing lines. -/
def subnet_head (if_addr : in_addr) : String :=
  "option rfc3442-classless-static-routes code 121 = array of integer 8;\n"
    ++ "option ms-classless-static-routes code 249 = array of integer 8;\n\n"
    ++ "subnet " ++ u (if_addr 0).val ++ "." ++ u (if_addr 1).val ++ "."
    ++ u (if_addr 2).val ++ ".0 netmask 255.255.255.0 \x7b\n"
    ++ "  range " ++ u (if_addr 0).val ++ "." ++ u (if_addr 1).val ++ "."
    ++ u (if_addr 2).val ++ ".100 " ++ u (if_addr 0).val ++ "." ++ u (if_addr 1).val
    ++ "." ++ u (if_addr 2).val ++ ".200;\n"

/-- The characters of the dotted form of four numbers. -/
def dotted (a b c d : Nat) : List Char :=
  (u a).data ++ '.' :: ((u b).data ++ '.' :: ((u c).data ++ '.' :: (u d).data))

/-! ## Example data -/

/-- The interface address 10.0.0.5. -/
def example_if_addr : in_addr := ![10, 0, 0, 5]

/-- A gateway route with destination 0.0.0.0. -/
def example_gtw_rt : rtentry :=
  ⟨⟨AF_INET, ![0, 0, 0, 0]⟩, ⟨AF_INET, ![0, 0, 0, 0]⟩, ⟨AF_INET, ![10, 0, 0, 1]⟩⟩

/-- The route 10.1.0.0 with mask 255.255.0.0. -/
def example_route_16 : rtentry :=
  ⟨⟨AF_INET, ![10, 1, 0, 0]⟩, ⟨AF_INET, ![255, 255, 0, 0]⟩, ⟨AF_INET, ![10, 0, 0, 1]⟩⟩

/-- The route 192.168.7.0 with mask 255.255.255.0. -/
def example_route_24 : rtentry :=
  ⟨⟨AF_INET, ![192, 168, 7, 0]⟩, ⟨AF_INET, ![255, 255, 255, 0]⟩, ⟨AF_INET, ![10, 0, 0, 1]⟩⟩

/-- The route 172.16.9.1 with mask 255.255.255.255. -/
def example_route_32 : rtentry :=
  ⟨⟨AF_INET, ![172, 16, 9, 1]⟩, ⟨AF_INET, ![255, 255, 255, 255]⟩, ⟨AF_INET, ![10, 0, 0, 1]⟩⟩

/-- The route 64.0.0.0 with mask 192.0.0.0. -/
def example_route_2 : rtentry :=
  ⟨⟨AF_INET, ![64, 0, 0, 0]⟩, ⟨AF_INET, ![192, 0, 0, 0]⟩, ⟨AF_INET, ![10, 0, 0, 1]⟩⟩

/-- A route with the destination 0.0.0.0 of `example_gtw_rt` and mask 0.0.0.0. -/
def example_route_0 : rtentry :=
  ⟨⟨AF_INET, ![0, 0, 0, 0]⟩, ⟨AF_INET, ![0, 0, 0, 0]⟩, ⟨AF_INET, ![10, 0, 0, 9]⟩⟩

/-- A tunnel state with the given split routes, DNS and routing requested. -/
def example_tunnel (split_rt : List rtentry) : tunnel :=
  ⟨⟨"ppp0", 1, 1⟩, ⟨![8, 8, 8, 8], ![1, 1, 1, 1], some "corp.example", split_rt,
    example_gtw_rt⟩⟩

/-- An interface list in which `ppp0` first appears without an address, then with an
address of another family, then with 10.0.0.5. -/
def example_ifaddrs : List ifaddrs :=
  [⟨"lo", some ⟨AF_INET, ![127, 0, 0, 1]⟩⟩, ⟨"ppp0", none⟩,
   ⟨"ppp0", some ⟨10, ![0, 0, 0, 0]⟩⟩, ⟨"ppp0", some ⟨AF_INET, ![10, 0, 0, 5]⟩⟩]

/-- A tunnel state without split routes in which routing is not requested. -/
def example_tunnel_no_routing : tunnel :=
  ⟨⟨"ppp0", 1, 0⟩, ⟨![8, 8, 8, 8], ![1, 1, 1, 1], some "corp.example", [], example_gtw_rt⟩⟩

/-- A tunnel state without split routes whose search suffix holds line breaks. -/
def example_tunnel_suffix_lines : tunnel :=
  ⟨⟨"ppp0", 1, 1⟩, ⟨![8, 8, 8, 8], ![1, 1, 1, 1],
    some "x\";\n  option rfc3442-classless-static-routes 0, 0, 10, 0, 0, 9;\n#", [],
    example_gtw_rt⟩⟩

/-- A tunnel state in which DNS is requested and routing is not, and whose search suffix
holds line breaks, a closing brace, a subnet line and a routers line. -/
def example_tunnel_suffix_block : tunnel :=
  ⟨⟨"ppp0", 1, 0⟩, ⟨![8, 8, 8, 8], ![1, 1, 1, 1],
    some ("x\";\n\x7d\nsubnet 10.9.9.0 netmask 255.255.255.0 \x7b\n"
      ++ "  option routers 10.9.9.1;\n  option domain-search \"y"), [],
    example_gtw_rt⟩⟩

/-! ## Auxiliary lemmas -/

theorem count_bits_acc (fuel byte acc : Nat) :
    count_bits fuel byte acc = acc + count_bits fuel byte 0 := by
  induction fuel generalizing byte acc with
  | zero => simp [count_bits]
  | succ fuel ih =>
    simp only [count_bits]
    split
    · rw [ih (byte >>> 1) (acc + (byte &&& 1)), ih (byte >>> 1) (0 + (byte &&& 1))]
      omega
    · rfl

theorem count_bits_fuel_aux (fuel : Nat) : ∀ (byte extra acc : Nat), byte < 2 ^ fuel →
    count_bits (fuel + extra) byte acc = count_bits fuel byte acc := by
  induction fuel with
  | zero =>
    intro byte extra acc h
    have h0 : byte = 0 := by simpa using h
    subst h0
    cases extra <;> simp [count_bits]
  | succ fuel ih =>
    intro byte extra acc h
    have e : fuel + 1 + extra = (fuel + extra) + 1 := by omega
    rw [e]
    simp only [count_bits]
    split
    · apply ih
      rw [Nat.shiftRight_eq_div_pow]
      rw [Nat.pow_succ] at h
      simp only [pow_one]
      omega
    · rfl

set_option maxRecDepth 100000 in
theorem count_bits_octet : ∀ b : Octet, count_bits 8 b.val 0 = popcount b.val := by
  decide

set_option maxRecDepth 100000 in
theorem popcount_octet_le : ∀ b : Octet, popcount b.val ≤ 8 := by
  decide

theorem prefix_length_sum (route : rtentry) :
    prefix_length route = ∑ i : Fin 4, popcount (route.rt_genmask.sin_addr i).val := by
  simp only [prefix_length, List.foldl, Fin.sum_univ_four]
  rw [count_bits_acc, count_bits_acc _ _ (count_bits _ _ _), count_bits_acc _ _ (count_bits _ _ _)]
  simp only [count_bits_octet]

theorem prefix_length_le (route : rtentry) : prefix_length route ≤ 32 := by
  rw [prefix_length_sum, Fin.sum_univ_four]
  have h0 := popcount_octet_le (route.rt_genmask.sin_addr 0)
  have h1 := popcount_octet_le (route.rt_genmask.sin_addr 1)
  have h2 := popcount_octet_le (route.rt_genmask.sin_addr 2)
  have h3 := popcount_octet_le (route.rt_genmask.sin_addr 3)
  omega

set_option maxRecDepth 100000 in
theorem u_octet_length : ∀ o : Octet, (u o.val).length ≤ 3 := by decide

set_option maxRecDepth 100000 in
theorem u_small_length : ∀ n : Fin 33, (u n.val).length ≤ 2 := by decide

theorem u_prefix_length_length (route : rtentry) : (u (prefix_length route)).length ≤ 2 :=
  u_small_length ⟨prefix_length route, Nat.lt_succ_of_le (prefix_length_le route)⟩

theorem count_bits_fuel (b : Octet) (extra acc : Nat) :
    count_bits (8 + extra) b.val acc = count_bits 8 b.val acc :=
  count_bits_fuel_aux 8 b.val extra acc b.isLt

theorem digitChar_isDigit : ∀ m : Fin 10, (Nat.digitChar m.val).isDigit = true := by decide

theorem toDigitsCore_isDigit (fuel : Nat) : ∀ (n : Nat) (ds : List Char),
    (∀ c ∈ ds, c.isDigit = true) → ∀ c ∈ Nat.toDigitsCore 10 fuel n ds, c.isDigit = true := by
  induction fuel with
  | zero => intro n ds h; simpa [Nat.toDigitsCore] using h
  | succ fuel ih =>
    intro n ds h
    have hd : (Nat.digitChar (n % 10)).isDigit = true :=
      digitChar_isDigit ⟨n % 10, Nat.mod_lt _ (by decide)⟩
    have hds : ∀ c ∈ Nat.digitChar (n % 10) :: ds, c.isDigit = true := by
      intro c hc
      rcases List.mem_cons.mp hc with rfl | hc
      · exact hd
      · exact h c hc
    simp only [Nat.toDigitsCore]
    split
    · exact hds
    · exact ih _ _ hds

theorem u_isDigit (n : Nat) : ∀ c ∈ (u n).data, c.isDigit = true := by
  simp only [u, Nat.repr, Nat.toDigits, List.asString]
  exact toDigitsCore_isDigit _ _ _ (by simp)

theorem isDigit_one_byte (c : Char) (h : c.isDigit = true) : c.toNat < 128 := by
  simp only [Char.isDigit, Bool.and_eq_true, decide_eq_true_eq] at h
  have h2 := h.2
  rw [UInt32.le_def, BitVec.le_def] at h2
  have e : (UInt32.toBitVec 57).toNat = 57 := by decide
  rw [e] at h2
  show c.val.toBitVec.toNat < 128
  omega

theorem utf8EncodeChar_one_byte (c : Char) (h : c.toNat < 128) :
    String.utf8EncodeChar c = [c.toNat.toUInt8] := by
  have hv : c.val ≤ 0x7f := by
    rw [UInt32.le_def, BitVec.le_def]
    have e : (UInt32.toBitVec 127).toNat = 127 := by decide
    rw [e]
    have h2 : c.val.toBitVec.toNat < 128 := h
    omega
  simp only [String.utf8EncodeChar, hv, if_true]
  rfl

theorem ofNat_toUInt8_one_byte (c : Char) (h : c.toNat < 128) :
    Char.ofNat (c.toNat.toUInt8).toNat = c := by
  have e : (c.toNat.toUInt8).toNat = c.toNat := by
    simp [Nat.toUInt8, UInt8.toNat, UInt8.ofNat]
    omega
  rw [e]
  exact Char.ofNat_toNat c

theorem c_bytes_append (a b : String) : c_bytes (a ++ b) = c_bytes a ++ c_bytes b := by
  simp [c_bytes, String.data_append, List.flatMap_append]

theorem c_bytes_one_byte_data : ∀ data : List Char, (∀ c ∈ data, c.toNat < 128) →
    data.flatMap String.utf8EncodeChar = data.map (fun c => c.toNat.toUInt8) := by
  intro data
  induction data with
  | nil => intro _; rfl
  | cons c cs ih =>
    intro h
    rw [List.flatMap_cons, List.map_cons, ih (fun x hx => h x (List.mem_cons_of_mem _ hx)),
      utf8EncodeChar_one_byte c (h c (List.mem_cons_self _ _))]
    rfl

theorem c_bytes_one_byte (s : String) (h : one_byte_text s) :
    c_bytes s = s.data.map (fun c => c.toNat.toUInt8) :=
  c_bytes_one_byte_data s.data h

theorem c_bytes_length_one_byte (s : String) (h : one_byte_text s) :
    (c_bytes s).length = s.length := by
  rw [c_bytes_one_byte s h, List.length_map]
  rfl

theorem c_text_c_bytes (s : String) (h : one_byte_text s) : c_text (c_bytes s) = s := by
  rw [c_bytes_one_byte s h]
  apply String.ext
  show List.map (fun b => Char.ofNat b.toNat) (List.map (fun c => c.toNat.toUInt8) s.data) = s.data
  rw [List.map_map]
  conv_rhs => rw [← List.map_id s.data]
  apply List.map_congr_left
  intro c hc
  exact ofNat_toUInt8_one_byte c (h c hc)

theorem c_bytes_lt_one_byte (s : String) (h : one_byte_text s) : ∀ b ∈ c_bytes s, b.toNat < 128 := by
  rw [c_bytes_one_byte s h]
  intro b hb
  obtain ⟨c, hc, rfl⟩ := List.mem_map.mp hb
  have e : (c.toNat.toUInt8).toNat = c.toNat := by
    have := h c hc
    simp [Nat.toUInt8, UInt8.toNat, UInt8.ofNat]
    omega
  rw [e]
  exact h c hc

theorem snprintf_fits (size : Nat) (s : String) (h : (c_bytes s).length ≤ size - 1) :
    snprintf size s = c_bytes s :=
  List.take_of_length_le h

theorem snprintf_text_fits (size : Nat) (s : String) (hs : one_byte_text s)
    (h : s.length ≤ size - 1) : c_text (snprintf size s) = s := by
  rw [snprintf_fits size s (by rw [c_bytes_length_one_byte s hs]; exact h)]
  exact c_text_c_bytes s hs

theorem one_byte_append (a b : String) (ha : one_byte_text a) (hb : one_byte_text b) :
    one_byte_text (a ++ b) := by
  intro c hc
  rw [String.data_append, List.mem_append] at hc
  rcases hc with hc | hc
  · exact ha c hc
  · exact hb c hc

theorem one_byte_u (n : Nat) : one_byte_text (u n) :=
  fun c hc => isDigit_one_byte c (u_isDigit n c hc)

theorem one_byte_separator : one_byte_text ", " := by
  unfold one_byte_text
  decide

theorem format_route_eq (route : rtentry) (if_addr : in_addr) :
    format_route route if_addr = render (spec_encode route if_addr) := by
  have hp := u_prefix_length_length route
  have hd := fun i => u_octet_length (route.rt_dst.sin_addr i)
  have ha := fun i => u_octet_length (if_addr i)
  have hd0 := hd 0; have hd1 := hd 1; have hd2 := hd 2; have hd3 := hd 3
  have ha0 := ha 0; have ha1 := ha 1; have ha2 := ha 2; have ha3 := ha 3
  have hs : ", ".length = 2 := rfl
  simp only [format_route, spec_encode, spec_significant_octets]
  split_ifs <;>
    (rw [snprintf_text_fits _ _
        (by repeat (first | with_reducible exact one_byte_u _
                          | with_reducible exact one_byte_separator
                          | with_reducible apply one_byte_append))
        (by simp only [String.length_append, hs]; omega)]
     simp [render, String.intercalate, String.intercalate.go])

theorem u_count_comma (n : Nat) : (u n).data.count ',' = 0 := by
  rw [List.count_eq_zero]
  intro h
  exact absurd (u_isDigit n _ h) (by decide)


theorem intercalate_go_data (s : String) : ∀ (xs : List String) (acc : String),
    (String.intercalate.go acc s xs).data
      = acc.data ++ (xs.map (fun x => s.data ++ x.data)).flatten := by
  intro xs
  induction xs with
  | nil => intro acc; simp [String.intercalate.go]
  | cons x xs ih => intro acc; simp [String.intercalate.go, ih, List.append_assoc]

theorem render_cons_data (v : Nat) (vs : List Nat) :
    (render (v :: vs)).data
      = (u v).data ++ (vs.map (fun x => ", ".data ++ (u x).data)).flatten := by
  simp [render, String.intercalate, intercalate_go_data, List.map_map, Function.comp_def]

theorem count_comma_tail (vs : List Nat) :
    ((vs.map (fun x => ", ".data ++ (u x).data)).flatten).count ',' = vs.length := by
  induction vs with
  | nil => simp
  | cons x xs ih =>
    simp only [List.map_cons, List.flatten_cons, List.count_append, ih, u_count_comma,
      List.length_cons]
    have h : (", " : String).data.count ',' = 1 := by decide
    rw [h]
    omega

theorem emitted_values_render (values : List Nat) (h : values ≠ []) :
    emitted_values (render values) = values.length := by
  cases values with
  | nil => exact absurd rfl h
  | cons v vs =>
    simp only [emitted_values, render_cons_data, List.count_append, u_count_comma,
      count_comma_tail, List.length_cons]
    omega

/-! ## Properties of `format_route` -/

theorem spec_encode_length (route : rtentry) (router : in_addr) :
    (spec_encode route router).length
      = 1 + spec_significant_octets (prefix_length route) + 4 := by
  simp only [spec_encode, spec_significant_octets]
  split_ifs <;> simp

theorem format_route_value_count (route : rtentry) (if_addr : in_addr) :
    emitted_values (format_route route if_addr)
      = 1 + spec_significant_octets (prefix_length route) + 4 := by
  rw [format_route_eq, emitted_values_render _ (by simp [spec_encode]), spec_encode_length]

/-- C1: for every route and router address, `format_route` returns the decimal values,
joined by a comma and a blank, of the prefix length, the first `significant_octets`
destination octets and the four router octets, in this order; that is
`1 + significant_octets + 4` values, the gateway field of the route has no influence, and
router 10.0.0.5 with destination 10.1.0.0 and mask 255.255.0.0 gives
`16, 10, 1, 10, 0, 0, 5`. -/
theorem format_route_emits (route : rtentry) (if_addr : in_addr) :
    format_route route if_addr = render (spec_encode route if_addr)
    ∧ (spec_encode route if_addr).length
        = 1 + spec_significant_octets (prefix_length route) + 4
    ∧ emitted_values (format_route route if_addr)
        = 1 + spec_significant_octets (prefix_length route) + 4
    ∧ (∀ gateway : sockaddr_in,
        format_route { route with rt_gateway := gateway } if_addr
          = format_route route if_addr)
    ∧ (∀ gateway : sockaddr_in,
        format_route ⟨⟨AF_INET, ![10, 1, 0, 0]⟩, ⟨AF_INET, ![255, 255, 0, 0]⟩, gateway⟩
          ![10, 0, 0, 5] = "16, 10, 1, 10, 0, 0, 5") := by
  refine ⟨format_route_eq route if_addr, spec_encode_length route if_addr,
    format_route_value_count route if_addr, ?_, ?_⟩
  · intro gateway
    rfl
  · intro gateway
    have h : format_route ⟨⟨AF_INET, ![10, 1, 0, 0]⟩, ⟨AF_INET, ![255, 255, 0, 0]⟩,
        ⟨AF_INET, ![0, 0, 0, 0]⟩⟩ ![10, 0, 0, 5] = "16, 10, 1, 10, 0, 0, 5" := by decide
    exact h

/-- C2: for every route the number of destination octets `format_route` emits is 4 for a
prefix length in (24,32], 3 in (16,24], 2 in [8,16] and 1 otherwise; the prefix length never
exceeds 32, and the mask 0.0.0.0 (prefix length 0) still has 1 destination octet. -/
theorem format_route_destination_octets (route : rtentry) (if_addr : in_addr) :
    let p := prefix_length route
    let d := fun i => (route.rt_dst.sin_addr i).val
    let r := [(if_addr 0).val, (if_addr 1).val, (if_addr 2).val, (if_addr 3).val]
    let out := format_route route if_addr
    p ≤ 32
    ∧ (24 < p → out = render ([p, d 0, d 1, d 2, d 3] ++ r) ∧ emitted_values out = 1 + 4 + 4)
    ∧ (16 < p ∧ p ≤ 24 → out = render ([p, d 0, d 1, d 2] ++ r)
        ∧ emitted_values out = 1 + 3 + 4)
    ∧ (8 ≤ p ∧ p ≤ 16 → out = render ([p, d 0, d 1] ++ r) ∧ emitted_values out = 1 + 2 + 4)
    ∧ (p < 8 → out = render ([p, d 0] ++ r) ∧ emitted_values out = 1 + 1 + 4)
    ∧ (route.rt_genmask.sin_addr = ![0, 0, 0, 0] →
        p = 0 ∧ out = render ([0, d 0] ++ r) ∧ emitted_values out = 1 + 1 + 4) := by
  intro p d r out
  have key : ∀ k, spec_significant_octets p = k →
      out = render (p :: (([d 0, d 1, d 2, d 3].take k) ++ r))
      ∧ emitted_values out = 1 + k + 4 := by
    intro k hk
    have h := format_route_eq route if_addr
    refine ⟨?_, ?_⟩
    · rw [← hk]
      simpa [spec_encode, List.map_take, p, d, r, out] using h
    · rw [← hk]
      exact format_route_value_count route if_addr
  have hp0 : route.rt_genmask.sin_addr = ![0, 0, 0, 0] → p = 0 := by
    intro hm
    simp only [p, prefix_length, hm]
    decide
  refine ⟨prefix_length_le route, ?_, ?_, ?_, ?_, ?_⟩
  · intro h
    exact key 4 (by simp only [spec_significant_octets]; split_ifs <;> omega)
  · intro h
    exact key 3 (by simp only [spec_significant_octets]; split_ifs <;> omega)
  · intro h
    exact key 2 (by simp only [spec_significant_octets]; split_ifs <;> omega)
  · intro h
    exact key 1 (by simp only [spec_significant_octets]; split_ifs <;> omega)
  · intro hm
    have h0 := hp0 hm
    have hk := key 1 (by simp only [spec_significant_octets]; split_ifs <;> omega)
    refine ⟨h0, ?_, hk.2⟩
    have := hk.1
    rw [h0] at this
    exact this

/-- C3: for every 4-octet mask, contiguous or not, the prefix length computed by
`format_route` is the total number of set bits of the four mask octets, and it is the
same for every permutation of the four octets.  (The bit loop has left every octet at 0
after 8 iterations: more iterations change nothing.) -/
theorem prefix_length_popcount (route : rtentry) :
    prefix_length route = ∑ i : Fin 4, popcount (route.rt_genmask.sin_addr i).val
    ∧ (∀ σ : Equiv.Perm (Fin 4),
        prefix_length
          { route with rt_genmask :=
              { route.rt_genmask with sin_addr := fun i => route.rt_genmask.sin_addr (σ i) } }
          = prefix_length route)
    ∧ (∀ (i : Fin 4) (extra acc : Nat),
        count_bits (8 + extra) (route.rt_genmask.sin_addr i).val acc
          = count_bits 8 (route.rt_genmask.sin_addr i).val acc) := by
  refine ⟨prefix_length_sum route, ?_, fun i extra acc => count_bits_fuel _ extra acc⟩
  intro σ
  rw [prefix_length_sum, prefix_length_sum]
  exact Equiv.sum_comp σ (fun i => popcount (route.rt_genmask.sin_addr i).val)

/-- C4: a route with mask 255.0.0.0 has prefix length 8, for which the classless encoding
rule asks for `ceil (8 / 8) = 1` destination octet; `format_route` emits two (`10, 0`). -/
theorem format_route_prefix_eight :
    prefix_length ⟨⟨AF_INET, ![10, 0, 0, 0]⟩, ⟨AF_INET, ![255, 0, 0, 0]⟩,
      ⟨AF_INET, ![0, 0, 0, 0]⟩⟩ = 8
    ∧ format_route ⟨⟨AF_INET, ![10, 0, 0, 0]⟩, ⟨AF_INET, ![255, 0, 0, 0]⟩,
        ⟨AF_INET, ![0, 0, 0, 0]⟩⟩ ![10, 0, 0, 5] = "8, 10, 0, 10, 0, 0, 5"
    ∧ emitted_values (format_route ⟨⟨AF_INET, ![10, 0, 0, 0]⟩, ⟨AF_INET, ![255, 0, 0, 0]⟩,
        ⟨AF_INET, ![0, 0, 0, 0]⟩⟩ ![10, 0, 0, 5]) - 1 - 4 = 2
    ∧ (8 + 7) / 8 = 1 := by
  decide


/-! ## Closed form of `write_routes` -/

theorem s_addr_inj (a b : in_addr) : s_addr a = s_addr b ↔ a = b := by
  constructor
  · intro h
    simp only [s_addr] at h
    have a0 := (a 0).isLt; have a1 := (a 1).isLt; have a2 := (a 2).isLt; have a3 := (a 3).isLt
    have b0 := (b 0).isLt; have b1 := (b 1).isLt; have b2 := (b 2).isLt; have b3 := (b 3).isLt
    funext i
    apply Fin.ext
    fin_cases i <;> simp <;> omega
  · intro h; rw [h]

theorem s_addr_eq_zero (a : in_addr) : s_addr a = 0 ↔ a = ![0, 0, 0, 0] := by
  rw [← s_addr_inj]
  rfl

theorem s_addr_excluded (gtw_rt route : rtentry) :
    s_addr (route_dest route) = s_addr (route_dest gtw_rt) ↔ excluded gtw_rt route = true := by
  simp [excluded, s_addr_inj]

theorem intercalate_go_append (s x : String) : ∀ (xs : List String) (acc : String),
    String.intercalate.go (x ++ acc) s xs = x ++ String.intercalate.go acc s xs := by
  intro xs
  induction xs with
  | nil => intro acc; simp [String.intercalate.go]
  | cons y ys ih =>
    intro acc
    simp only [String.intercalate.go]
    rw [String.append_assoc x acc s, String.append_assoc x (acc ++ s) y, ih]

theorem rfc3442_loop_rest (gtw_rt : rtentry) (if_addr : in_addr) :
    ∀ (routes : List rtentry) (file : String),
      rfc3442_loop gtw_rt if_addr routes false file
        = (false, String.intercalate.go file rfc3442_separator
            ((routes.filter (fun route => !excluded gtw_rt route)).map
              (fun route => format_route route if_addr))) := by
  intro routes
  induction routes with
  | nil => intro file; simp [rfc3442_loop, String.intercalate.go]
  | cons route rest ih =>
    intro file
    by_cases h : excluded gtw_rt route = true
    · have hs := (s_addr_excluded gtw_rt route).mpr h
      simp [rfc3442_loop, hs, h, ih]
    · have hs : ¬ s_addr (route_dest route) = s_addr (route_dest gtw_rt) :=
        fun e => h ((s_addr_excluded gtw_rt route).mp e)
      simp [rfc3442_loop, hs, h, ih, String.intercalate.go, rfc3442_separator]

theorem rfc3442_loop_first_none (gtw_rt : rtentry) (if_addr : in_addr) :
    ∀ (routes : List rtentry) (file : String),
      routes.filter (fun route => !excluded gtw_rt route) = [] →
      rfc3442_loop gtw_rt if_addr routes true file = (true, file) := by
  intro routes
  induction routes with
  | nil => intro file _; simp [rfc3442_loop]
  | cons route rest ih =>
    intro file hk
    by_cases h : excluded gtw_rt route = true
    · have hs := (s_addr_excluded gtw_rt route).mpr h
      simp only [List.filter_cons, h, Bool.not_true] at hk
      simp [rfc3442_loop, hs, ih file (by simpa using hk)]
    · simp [List.filter_cons, h] at hk

theorem rfc3442_loop_first_some (gtw_rt : rtentry) (if_addr : in_addr) :
    ∀ (routes : List rtentry) (file : String),
      routes.filter (fun route => !excluded gtw_rt route) ≠ [] →
      rfc3442_loop gtw_rt if_addr routes true file
        = (false, file ++ "  option rfc3442-classless-static-routes "
            ++ rfc3442_separator.intercalate
                ((routes.filter (fun route => !excluded gtw_rt route)).map
                  (fun route => format_route route if_addr))) := by
  intro routes
  induction routes with
  | nil => intro file hk; exact absurd rfl hk
  | cons route rest ih =>
    intro file hk
    by_cases h : excluded gtw_rt route = true
    · have hs := (s_addr_excluded gtw_rt route).mpr h
      have hk2 : rest.filter (fun route => !excluded gtw_rt route) ≠ [] := by
        simpa [List.filter_cons, h] using hk
      simp [rfc3442_loop, hs, h, ih file hk2]
    · have hs : ¬ s_addr (route_dest route) = s_addr (route_dest gtw_rt) :=
        fun e => h ((s_addr_excluded gtw_rt route).mp e)
      simp [rfc3442_loop, hs, h, rfc3442_loop_rest, String.intercalate, intercalate_go_append]

theorem ms_loop_rest (gtw_rt : rtentry) (if_addr : in_addr) :
    ∀ (routes : List rtentry) (file : String),
      ms_loop gtw_rt if_addr routes false file
        = (false, String.intercalate.go file ms_separator
            ((routes.filter (fun route => !excluded gtw_rt route)).map
              (fun route => format_route route if_addr))) := by
  intro routes
  induction routes with
  | nil => intro file; simp [ms_loop, String.intercalate.go]
  | cons route rest ih =>
    intro file
    by_cases h : excluded gtw_rt route = true
    · have hs := (s_addr_excluded gtw_rt route).mpr h
      simp [ms_loop, hs, h, ih]
    · have hs : ¬ s_addr (route_dest route) = s_addr (route_dest gtw_rt) :=
        fun e => h ((s_addr_excluded gtw_rt route).mp e)
      simp [ms_loop, hs, h, ih, String.intercalate.go, ms_separator]

theorem ms_loop_first_none (gtw_rt : rtentry) (if_addr : in_addr) :
    ∀ (routes : List rtentry) (file : String),
      routes.filter (fun route => !excluded gtw_rt route) = [] →
      ms_loop gtw_rt if_addr routes true file = (true, file) := by
  intro routes
  induction routes with
  | nil => intro file _; simp [ms_loop]
  | cons route rest ih =>
    intro file hk
    by_cases h : excluded gtw_rt route = true
    · have hs := (s_addr_excluded gtw_rt route).mpr h
      simp only [List.filter_cons, h, Bool.not_true] at hk
      simp [ms_loop, hs, ih file (by simpa using hk)]
    · simp [List.filter_cons, h] at hk

theorem ms_loop_first_some (gtw_rt : rtentry) (if_addr : in_addr) :
    ∀ (routes : List rtentry) (file : String),
      routes.filter (fun route => !excluded gtw_rt route) ≠ [] →
      ms_loop gtw_rt if_addr routes true file
        = (false, file ++ "  option ms-classless-static-routes "
            ++ ms_separator.intercalate
                ((routes.filter (fun route => !excluded gtw_rt route)).map
                  (fun route => format_route route if_addr))) := by
  intro routes
  induction routes with
  | nil => intro file hk; exact absurd rfl hk
  | cons route rest ih =>
    intro file hk
    by_cases h : excluded gtw_rt route = true
    · have hs := (s_addr_excluded gtw_rt route).mpr h
      have hk2 : rest.filter (fun route => !excluded gtw_rt route) ≠ [] := by
        simpa [List.filter_cons, h] using hk
      simp [ms_loop, hs, h, ih file hk2]
    · have hs : ¬ s_addr (route_dest route) = s_addr (route_dest gtw_rt) :=
        fun e => h ((s_addr_excluded gtw_rt route).mp e)
      simp [ms_loop, hs, h, ms_loop_rest, String.intercalate, intercalate_go_append]

theorem write_routes_no_split (file : String) (tun : tunnel) (if_addr : in_addr)
    (h : tun.ipv4.split_rt = []) :
    write_routes file tun if_addr
      = file ++ "  option routers " ++ u (if_addr 0).val ++ "." ++ u (if_addr 1).val ++ "."
        ++ u (if_addr 2).val ++ "." ++ u (if_addr 3).val ++ ";\n" := by
  simp [write_routes, split_routes, h]

theorem write_routes_all_excluded (file : String) (tun : tunnel) (if_addr : in_addr)
    (h : tun.ipv4.split_rt ≠ []) (hk : kept_routes tun = []) :
    write_routes file tun if_addr = file := by
  have hl : split_routes tun ≠ 0 := by simpa [split_routes] using h
  simp only [write_routes, if_pos hl]
  rw [rfc3442_loop_first_none _ _ _ _ hk]
  rfl

theorem write_routes_kept (file : String) (tun : tunnel) (if_addr : in_addr)
    (hk : kept_routes tun ≠ []) :
    write_routes file tun if_addr
      = file ++ "  option rfc3442-classless-static-routes "
        ++ rfc3442_separator.intercalate (kept_entries tun if_addr) ++ ";\n"
        ++ "  option ms-classless-static-routes "
        ++ ms_separator.intercalate (kept_entries tun if_addr) ++ ";\n" := by
  have hl : split_routes tun ≠ 0 := by
    intro e
    apply hk
    have : tun.ipv4.split_rt = [] := by simpa [split_routes] using e
    simp [kept_routes, this]
  simp only [write_routes, if_pos hl]
  rw [rfc3442_loop_first_some _ _ _ _ hk]
  simp only [Bool.not_false, if_true]
  rw [ms_loop_first_some _ _ _ _ hk]
  rfl


/-! ## Occurrences of a piece of text -/

theorem not_text_contains_of_char (text piece : String) (c : Char) (hc : c ∈ piece.data)
    (h : c ∉ text.data) : ¬ text_contains text piece :=
  fun hin => h (List.IsInfix.subset hin hc)

theorem no_er_of_not_mem (l : List Char) (h : 'e' ∉ l) : no_er l := by
  constructor
  · intro hin
    exact h (List.IsInfix.subset hin (by simp))
  · intro hl
    exact h (List.mem_of_getLast?_eq_some hl)

theorem no_er_tail (c : Char) (l : List Char) (h : no_er (c :: l)) : no_er l := by
  constructor
  · intro hin
    exact h.1 ((List.infix_cons_iff).mpr (Or.inr hin))
  · intro hl
    cases l with
    | nil => simp at hl
    | cons d l => exact h.2 (by rw [List.getLast?_cons_cons]; exact hl)

theorem no_er_append (a b : List Char) (ha : no_er a) (hb : no_er b) : no_er (a ++ b) := by
  induction a with
  | nil => simpa using hb
  | cons c a ih =>
    have ih2 := ih (no_er_tail c a ha)
    constructor
    · intro hin
      rw [List.cons_append, List.infix_cons_iff] at hin
      rcases hin with hp | hi
      · rw [List.cons_prefix_cons] at hp
        obtain ⟨hc, hr⟩ := hp
        cases a with
        | nil =>
          apply ha.2
          simp [← hc]
        | cons d a =>
          rw [List.cons_append, List.cons_prefix_cons] at hr
          apply ha.1
          rw [← hc, ← hr.1]
          exact (List.prefix_append ['e', 'r'] a).isInfix
      · exact ih2.1 hi
    · rw [List.getLast?_append]
      intro hl
      cases hbl : b.getLast? with
      | none =>
        rw [hbl] at hl
        exact ha.2 (by simpa using hl)
      | some x =>
        rw [hbl] at hl
        exact hb.2 (by rw [hbl]; simpa using hl)

theorem no_er_flatten (ls : List (List Char)) (h : ∀ l ∈ ls, no_er l) : no_er ls.flatten := by
  induction ls with
  | nil => exact no_er_of_not_mem _ (by simp)
  | cons l ls ih =>
    rw [List.flatten_cons]
    exact no_er_append _ _ (h l (by simp)) (ih (fun x hx => h x (by simp [hx])))


theorem render_chars (values : List Nat) :
    ∀ c ∈ (render values).data, c.isDigit = true ∨ c = ',' ∨ c = ' ' := by
  cases values with
  | nil => intro c hc; simp [render, String.intercalate] at hc
  | cons v vs =>
    intro c hc
    rw [render_cons_data, List.mem_append] at hc
    rcases hc with hc | hc
    · exact Or.inl (u_isDigit v c hc)
    · rw [List.mem_flatten] at hc
      obtain ⟨l, hl, hcl⟩ := hc
      rw [List.mem_map] at hl
      obtain ⟨x, _, rfl⟩ := hl
      rw [List.mem_append] at hcl
      rcases hcl with hcl | hcl
      · have : c = ',' ∨ c = ' ' := by simpa using hcl
        exact Or.inr this
      · exact Or.inl (u_isDigit x c hcl)

theorem format_route_chars (route : rtentry) (if_addr : in_addr) :
    ∀ c ∈ (format_route route if_addr).data, c.isDigit = true ∨ c = ',' ∨ c = ' ' := by
  rw [format_route_eq]
  exact render_chars _

theorem format_route_no_er (route : rtentry) (if_addr : in_addr) :
    no_er (format_route route if_addr).data := by
  apply no_er_of_not_mem
  intro h
  rcases format_route_chars route if_addr _ h with h | h | h
  · exact absurd h (by decide)
  · exact absurd h (by decide)
  · exact absurd h (by decide)

theorem intercalate_data (sep : String) (e : String) (es : List String) :
    (sep.intercalate (e :: es)).data
      = e.data ++ (es.map (fun x => sep.data ++ x.data)).flatten := by
  simp [String.intercalate, intercalate_go_data]

theorem no_er_intercalate (sep : String) (entries : List String) (hsep : no_er sep.data)
    (h : ∀ e ∈ entries, no_er e.data) : no_er (sep.intercalate entries).data := by
  cases entries with
  | nil => exact no_er_of_not_mem _ (by simp [String.intercalate])
  | cons e es =>
    rw [intercalate_data]
    apply no_er_append _ _ (h e (by simp))
    apply no_er_flatten
    intro l hl
    rw [List.mem_map] at hl
    obtain ⟨x, hx, rfl⟩ := hl
    exact no_er_append _ _ hsep (h x (by simp [hx]))

theorem kept_entries_no_er (tun : tunnel) (if_addr : in_addr) :
    ∀ e ∈ kept_entries tun if_addr, no_er e.data := by
  intro e he
  simp only [kept_entries, List.mem_map] at he
  obtain ⟨route, _, rfl⟩ := he
  exact format_route_no_er route if_addr

theorem routers_line_chars (if_addr : in_addr) (c : Char)
    (hc : c ∈ ("  option routers " ++ u (if_addr 0).val ++ "." ++ u (if_addr 1).val ++ "."
        ++ u (if_addr 2).val ++ "." ++ u (if_addr 3).val ++ ";\n").data) :
    c.isDigit = true ∨ c ∈ "  option routers .;\n".data := by
  simp only [String.data_append, List.mem_append] at hc
  rcases hc with ((((((((hc | hc) | hc) | hc) | hc) | hc) | hc) | hc) | hc)
  · right; revert hc; simp; tauto
  · exact Or.inl (u_isDigit _ c hc)
  · right; revert hc; simp; tauto
  · exact Or.inl (u_isDigit _ c hc)
  · right; revert hc; simp; tauto
  · exact Or.inl (u_isDigit _ c hc)
  · right; revert hc; simp; tauto
  · exact Or.inl (u_isDigit _ c hc)
  · right; revert hc; simp; tauto

/-- C7: the text emitted by `write_routes` never has both an `option routers` line and a
classless-static-routes option (rfc3442 or ms), and it has the rfc3442 option if and only
if it has the ms option; the emitted text is what the call appends to the file. -/
theorem write_routes_forms_exclusive (tun : tunnel) (if_addr : in_addr) :
    let out := write_routes "" tun if_addr
    (∀ file, write_routes file tun if_addr = file ++ out)
    ∧ ¬ (text_contains out "option routers"
          ∧ (text_contains out "option rfc3442-classless-static-routes"
              ∨ text_contains out "option ms-classless-static-routes"))
    ∧ (text_contains out "option rfc3442-classless-static-routes"
        ↔ text_contains out "option ms-classless-static-routes") := by
  intro out
  by_cases hs : tun.ipv4.split_rt = []
  · -- the router form
    have hout := write_routes_no_split "" tun if_addr hs
    have hf : ¬ text_contains out "option rfc3442-classless-static-routes" := by
      apply not_text_contains_of_char _ _ 'f' (by decide)
      intro hc
      rw [show out = _ from hout, String.empty_append] at hc
      rcases routers_line_chars if_addr _ hc with h | h
      · exact absurd h (by decide)
      · exact absurd h (by decide)
    have hm : ¬ text_contains out "option ms-classless-static-routes" := by
      apply not_text_contains_of_char _ _ 'm' (by decide)
      intro hc
      rw [show out = _ from hout, String.empty_append] at hc
      rcases routers_line_chars if_addr _ hc with h | h
      · exact absurd h (by decide)
      · exact absurd h (by decide)
    refine ⟨?_, ?_, ?_⟩
    · intro file
      rw [show out = _ from hout, write_routes_no_split file tun if_addr hs]
      simp [String.append_assoc]
    · rintro ⟨_, h | h⟩
      · exact hf h
      · exact hm h
    · exact ⟨fun h => absurd h hf, fun h => absurd h hm⟩
  · by_cases hk : kept_routes tun = []
    · -- nothing is emitted
      have hout : out = "" := write_routes_all_excluded "" tun if_addr hs hk
      refine ⟨?_, ?_, ?_⟩
      · intro file
        rw [hout, write_routes_all_excluded file tun if_addr hs hk]
        simp
      · rintro ⟨h, _⟩
        rw [hout] at h
        revert h
        decide
      · rw [hout]
        decide
    · -- the encoded-route form
      have hout := write_routes_kept "" tun if_addr hk
      have hd : out.data
          = "  option rfc3442-classless-static-routes ".data
            ++ ((rfc3442_separator.intercalate (kept_entries tun if_addr)).data
            ++ (";\n".data ++ ("  option ms-classless-static-routes ".data
            ++ ((ms_separator.intercalate (kept_entries tun if_addr)).data
            ++ ";\n".data)))) := by
        rw [show out = _ from hout, String.empty_append]
        simp only [String.data_append, List.append_assoc]
      have hr : text_contains out "option rfc3442-classless-static-routes" := by
        unfold text_contains
        rw [hd]
        exact List.IsInfix.trans (by decide) (List.prefix_append _ _).isInfix
      have hm : text_contains out "option ms-classless-static-routes" := by
        unfold text_contains
        rw [hd, ← List.append_assoc, ← List.append_assoc]
        exact List.IsInfix.trans
          (List.IsInfix.trans (by decide) (List.prefix_append _ _).isInfix)
          (List.suffix_append _ _).isInfix
      have hn : ¬ text_contains out "option routers" := by
        intro h
        unfold text_contains at h
        have her : ['e', 'r'] <:+: out.data := List.IsInfix.trans (by decide) h
        have hclean : no_er out.data := by
          rw [hd]
          have he := kept_entries_no_er tun if_addr
          apply no_er_append _ _ ⟨by decide, by decide⟩
          apply no_er_append _ _ (no_er_intercalate _ _ ⟨by decide, by decide⟩ he)
          apply no_er_append _ _ ⟨by decide, by decide⟩
          apply no_er_append _ _ ⟨by decide, by decide⟩
          apply no_er_append _ _ (no_er_intercalate _ _ ⟨by decide, by decide⟩ he)
          exact ⟨by decide, by decide⟩
        exact hclean.1 her
      refine ⟨?_, ?_, ?_⟩
      · intro file
        rw [show out = _ from hout, write_routes_kept file tun if_addr hk]
        simp [String.append_assoc]
      · rintro ⟨h, _⟩
        exact hn h
      · exact ⟨fun _ => hm, fun _ => hr⟩


theorem filter_not_excluded (gtw_rt : rtentry) (routes : List rtentry) :
    routes.filter (fun route => decide (route_dest route ≠ route_dest gtw_rt))
      = routes.filter (fun route => !excluded gtw_rt route) := by
  congr 1
  funext route
  simp [excluded]

/-- C8: whenever a route survives the exclusion, `write_routes` lists in the ms option the
same sequence of entries as in the rfc3442 option: the split routes whose destination is
not that of the gateway route, in list order, each formatted by `format_route` with the
interface address. -/
theorem write_routes_same_entries (file : String) (tun : tunnel) (if_addr : in_addr)
    (h : ∃ route ∈ tun.ipv4.split_rt, route_dest route ≠ route_dest tun.ipv4.gtw_rt) :
    write_routes file tun if_addr
      = file ++ "  option rfc3442-classless-static-routes "
        ++ rfc3442_separator.intercalate
            ((tun.ipv4.split_rt.filter
                (fun route => decide (route_dest route ≠ route_dest tun.ipv4.gtw_rt))).map
              (fun route => format_route route if_addr)) ++ ";\n"
        ++ "  option ms-classless-static-routes "
        ++ ms_separator.intercalate
            ((tun.ipv4.split_rt.filter
                (fun route => decide (route_dest route ≠ route_dest tun.ipv4.gtw_rt))).map
              (fun route => format_route route if_addr)) ++ ";\n" := by
  have hk : kept_routes tun ≠ [] := by
    obtain ⟨route, hmem, hne⟩ := h
    intro e
    have : route ∈ kept_routes tun := by
      simp only [kept_routes, List.mem_filter]
      exact ⟨hmem, by simpa [excluded] using hne⟩
    rw [e] at this
    simp at this
  rw [write_routes_kept file tun if_addr hk, filter_not_excluded]
  rfl

set_option maxRecDepth 100000 in
/-- Witness for C8: routes 10.1.0.0/16, 0.0.0.0/0 (the gateway destination) and
192.168.7.0/24 behind 10.0.0.5. -/
theorem write_routes_same_entries_witness :
    (∃ route ∈ (example_tunnel [example_route_16, example_route_0, example_route_24]).ipv4.split_rt,
        route_dest route ≠ route_dest
          (example_tunnel [example_route_16, example_route_0, example_route_24]).ipv4.gtw_rt)
    ∧ write_routes ""
        (example_tunnel [example_route_16, example_route_0, example_route_24]) example_if_addr
      = "" ++ "  option rfc3442-classless-static-routes "
        ++ rfc3442_separator.intercalate
            ["16, 10, 1, 10, 0, 0, 5", "24, 192, 168, 7, 10, 0, 0, 5"] ++ ";\n"
        ++ "  option ms-classless-static-routes "
        ++ ms_separator.intercalate
            ["16, 10, 1, 10, 0, 0, 5", "24, 192, 168, 7, 10, 0, 0, 5"] ++ ";\n" :=
  ⟨by decide,
   (write_routes_same_entries ""
      (example_tunnel [example_route_16, example_route_0, example_route_24]) example_if_addr
      (by decide)).trans (by decide)⟩


theorem kept_routes_split (tun : tunnel) (pre post : List rtentry) (route : rtentry)
    (h : tun.ipv4.split_rt = pre ++ route :: post) :
    kept_routes tun
      = pre.filter (fun r => decide (route_dest r ≠ route_dest tun.ipv4.gtw_rt))
        ++ (if route_dest route = route_dest tun.ipv4.gtw_rt then [] else [route])
        ++ post.filter (fun r => decide (route_dest r ≠ route_dest tun.ipv4.gtw_rt)) := by
  simp only [kept_routes, h, List.filter_append, List.filter_cons, filter_not_excluded]
  by_cases e : route_dest route = route_dest tun.ipv4.gtw_rt
  · simp [excluded, e]
  · simp [excluded, e]

/-- C5: a route of the split-route list whose destination is that of the gateway route,
whatever its mask and gateway, has no entry in the rfc3442 option and none in the ms
option: the entries are those of the routes before it followed by those of the routes
after it (and nothing is emitted when there are none).  Any other route of the list has
its entry, at its place, in both options. -/
theorem write_routes_exclusion (file : String) (tun : tunnel) (if_addr : in_addr)
    (pre post : List rtentry) (route : rtentry)
    (h : tun.ipv4.split_rt = pre ++ route :: post) :
    let entries := fun routes : List rtentry =>
      (routes.filter (fun r => decide (route_dest r ≠ route_dest tun.ipv4.gtw_rt))).map
        (fun r => format_route r if_addr)
    (route_dest route = route_dest tun.ipv4.gtw_rt →
      write_routes file tun if_addr
        = if entries pre ++ entries post = [] then file
          else file ++ "  option rfc3442-classless-static-routes "
            ++ rfc3442_separator.intercalate (entries pre ++ entries post) ++ ";\n"
            ++ "  option ms-classless-static-routes "
            ++ ms_separator.intercalate (entries pre ++ entries post) ++ ";\n")
    ∧ (route_dest route ≠ route_dest tun.ipv4.gtw_rt →
      write_routes file tun if_addr
        = file ++ "  option rfc3442-classless-static-routes "
          ++ rfc3442_separator.intercalate
              (entries pre ++ format_route route if_addr :: entries post) ++ ";\n"
          ++ "  option ms-classless-static-routes "
          ++ ms_separator.intercalate
              (entries pre ++ format_route route if_addr :: entries post) ++ ";\n") := by
  intro entries
  have hsplit := kept_routes_split tun pre post route h
  have hne : tun.ipv4.split_rt ≠ [] := by rw [h]; simp
  constructor
  · intro e
    rw [if_pos e, List.append_nil] at hsplit
    have hent : kept_entries tun if_addr = entries pre ++ entries post := by
      simp only [kept_entries, hsplit, List.map_append, entries]
    by_cases hk : kept_routes tun = []
    · have : entries pre ++ entries post = [] := by
        rw [← hent]; simp [kept_entries, hk]
      rw [if_pos this]
      exact write_routes_all_excluded file tun if_addr hne hk
    · have : entries pre ++ entries post ≠ [] := by
        rw [← hent]; simpa [kept_entries] using hk
      rw [if_neg this, write_routes_kept file tun if_addr hk, hent]
  · intro e
    rw [if_neg e] at hsplit
    have hent : kept_entries tun if_addr
        = entries pre ++ format_route route if_addr :: entries post := by
      simp only [kept_entries, hsplit, List.map_append, entries]
      simp
    have hk : kept_routes tun ≠ [] := by
      rw [hsplit]; simp
    rw [write_routes_kept file tun if_addr hk, hent]

set_option maxRecDepth 100000 in
/-- Witness for C5: between 10.1.0.0/16 and 192.168.7.0/24, a route to the gateway
destination 0.0.0.0 adds nothing, and the route 172.16.9.1/32 adds its entry. -/
theorem write_routes_exclusion_witness :
    ((example_tunnel [example_route_16, example_route_0, example_route_24]).ipv4.split_rt
        = [example_route_16] ++ example_route_0 :: [example_route_24]
      ∧ route_dest example_route_0 = route_dest example_gtw_rt
      ∧ write_routes ""
          (example_tunnel [example_route_16, example_route_0, example_route_24])
          example_if_addr
        = "  option rfc3442-classless-static-routes 16, 10, 1, 10, 0, 0, 5"
          ++ rfc3442_separator ++ "24, 192, 168, 7, 10, 0, 0, 5;\n"
          ++ "  option ms-classless-static-routes 16, 10, 1, 10, 0, 0, 5"
          ++ ms_separator ++ "24, 192, 168, 7, 10, 0, 0, 5;\n")
    ∧ ((example_tunnel [example_route_16, example_route_32, example_route_24]).ipv4.split_rt
        = [example_route_16] ++ example_route_32 :: [example_route_24]
      ∧ route_dest example_route_32 ≠ route_dest example_gtw_rt
      ∧ write_routes ""
          (example_tunnel [example_route_16, example_route_32, example_route_24])
          example_if_addr
        = "  option rfc3442-classless-static-routes 16, 10, 1, 10, 0, 0, 5"
          ++ rfc3442_separator ++ "32, 172, 16, 9, 1, 10, 0, 0, 5"
          ++ rfc3442_separator ++ "24, 192, 168, 7, 10, 0, 0, 5;\n"
          ++ "  option ms-classless-static-routes 16, 10, 1, 10, 0, 0, 5"
          ++ ms_separator ++ "32, 172, 16, 9, 1, 10, 0, 0, 5"
          ++ ms_separator ++ "24, 192, 168, 7, 10, 0, 0, 5;\n") :=
  ⟨⟨rfl, by decide,
    ((write_routes_exclusion ""
      (example_tunnel [example_route_16, example_route_0, example_route_24]) example_if_addr
      [example_route_16] [example_route_24] example_route_0 rfl).1 (by decide)).trans
      (by decide)⟩,
   ⟨rfl, by decide,
    ((write_routes_exclusion ""
      (example_tunnel [example_route_16, example_route_32, example_route_24]) example_if_addr
      [example_route_16] [example_route_24] example_route_32 rfl).2 (by decide)).trans
      (by decide)⟩⟩

/-- C6, as the code has it: with no split route at all, `write_routes` emits exactly the
line `option routers A.B.C.D;` naming the interface address and no classless-static-routes
option; with a non-empty split-route list of which every route is excluded, it emits
nothing at all. -/
theorem write_routes_router_fallback (file : String) (tun : tunnel) (if_addr : in_addr) :
    (tun.ipv4.split_rt = [] →
      write_routes file tun if_addr = file ++ "  option routers " ++ inet_ntop if_addr ++ ";\n"
      ∧ ¬ text_contains (write_routes "" tun if_addr) "classless-static-routes")
    ∧ (tun.ipv4.split_rt ≠ [] →
        (∀ route ∈ tun.ipv4.split_rt, route_dest route = route_dest tun.ipv4.gtw_rt) →
        write_routes file tun if_addr = file) := by
  constructor
  · intro hs
    constructor
    · rw [write_routes_no_split file tun if_addr hs]
      simp [inet_ntop, String.append_assoc]
    · apply not_text_contains_of_char _ _ 'c' (by decide)
      intro hc
      rw [write_routes_no_split "" tun if_addr hs, String.empty_append] at hc
      rcases routers_line_chars if_addr _ hc with h | h
      · exact absurd h (by decide)
      · exact absurd h (by decide)
  · intro hs hall
    apply write_routes_all_excluded file tun if_addr hs
    simp only [kept_routes, List.filter_eq_nil_iff]
    intro route hmem
    simp [excluded, hall route hmem]

/-- Witness for C6 as amended: no split route behind 10.0.0.5, and a split-route list
holding only a route to the gateway destination. -/
theorem write_routes_router_fallback_witness :
    ((example_tunnel []).ipv4.split_rt = [] ∧
      write_routes "" (example_tunnel []) example_if_addr = "  option routers 10.0.0.5;\n"
      ∧ ¬ text_contains (write_routes "" (example_tunnel []) example_if_addr)
          "classless-static-routes")
    ∧ ((example_tunnel [example_route_0]).ipv4.split_rt ≠ [] ∧
        (∀ route ∈ (example_tunnel [example_route_0]).ipv4.split_rt,
          route_dest route = route_dest (example_tunnel [example_route_0]).ipv4.gtw_rt) ∧
        write_routes "" (example_tunnel [example_route_0]) example_if_addr = "") :=
  ⟨⟨rfl,
    (((write_routes_router_fallback "" (example_tunnel []) example_if_addr).1 rfl).1).trans
      (by decide),
    ((write_routes_router_fallback "" (example_tunnel []) example_if_addr).1 rfl).2⟩,
   ⟨by decide, by decide,
    (write_routes_router_fallback "" (example_tunnel [example_route_0]) example_if_addr).2
      (by decide) (by decide)⟩⟩

/-- C6, counterexample: routing is requested and the only split route has the destination
of the gateway route, so that no route survives the exclusion; `write_routes` emits
nothing, in particular no `option routers` line. -/
theorem write_routes_all_excluded_no_routers :
    (example_tunnel [example_route_0]).config.set_routes ≠ 0
    ∧ (example_tunnel [example_route_0]).ipv4.split_rt.filter
        (fun route => decide (route_dest route
          ≠ route_dest (example_tunnel [example_route_0]).ipv4.gtw_rt)) = []
    ∧ write_routes "" (example_tunnel [example_route_0]) example_if_addr = ""
    ∧ ¬ text_contains (write_routes "" (example_tunnel [example_route_0]) example_if_addr)
        "option routers" := by
  decide


/-- C9: `write_dns` emits the secondary nameserver only as the second element of a
`domain-name-servers` option whose first element is the primary one; when the primary is
unset (address 0) no `domain-name-servers` option is emitted, whatever the secondary: the
output is then at most the `domain-search` line. -/
theorem write_dns_secondary (file : String) (tun : tunnel) :
    let search := match tun.ipv4.dns_suffix with
      | some dns_suffix => "  option domain-search \"" ++ dns_suffix ++ "\";\n"
      | none => ""
    (tun.ipv4.ns1_addr = ![0, 0, 0, 0] → write_dns file tun = file ++ search)
    ∧ (tun.ipv4.ns1_addr ≠ ![0, 0, 0, 0] → tun.ipv4.ns2_addr ≠ ![0, 0, 0, 0] →
        write_dns file tun
          = file ++ "  option domain-name-servers " ++ inet_ntop tun.ipv4.ns1_addr ++ ", "
            ++ inet_ntop tun.ipv4.ns2_addr ++ ";\n" ++ search)
    ∧ (tun.ipv4.ns1_addr ≠ ![0, 0, 0, 0] → tun.ipv4.ns2_addr = ![0, 0, 0, 0] →
        write_dns file tun
          = file ++ "  option domain-name-servers " ++ inet_ntop tun.ipv4.ns1_addr ++ ";\n"
            ++ search) := by
  intro search
  refine ⟨?_, ?_, ?_⟩
  · intro h1
    have z1 : s_addr tun.ipv4.ns1_addr = 0 := (s_addr_eq_zero _).mpr h1
    simp only [write_dns, z1, search]
    cases tun.ipv4.dns_suffix <;> (apply String.ext; simp)
  · intro h1 h2
    have z1 : s_addr tun.ipv4.ns1_addr ≠ 0 := fun e => h1 ((s_addr_eq_zero _).mp e)
    have z2 : s_addr tun.ipv4.ns2_addr ≠ 0 := fun e => h2 ((s_addr_eq_zero _).mp e)
    simp only [write_dns, search]
    rw [if_pos z1, if_pos z2]
    cases tun.ipv4.dns_suffix <;> (apply String.ext; simp)
  · intro h1 h2
    have z1 : s_addr tun.ipv4.ns1_addr ≠ 0 := fun e => h1 ((s_addr_eq_zero _).mp e)
    have z2 : s_addr tun.ipv4.ns2_addr = 0 := (s_addr_eq_zero _).mpr h2
    simp only [write_dns, search]
    rw [if_pos z1, if_neg (by simp [z2])]
    cases tun.ipv4.dns_suffix <;> (apply String.ext; simp)

set_option maxRecDepth 100000 in
/-- Witness for C9: a secondary nameserver 1.1.1.1 without a primary one, and the same
with the primary 8.8.8.8. -/
theorem write_dns_secondary_witness :
    ((![0, 0, 0, 0] : in_addr) = ![0, 0, 0, 0]
      ∧ write_dns "" ⟨⟨"ppp0", 1, 1⟩,
          ⟨![0, 0, 0, 0], ![1, 1, 1, 1], some "corp.example", [], example_gtw_rt⟩⟩
        = "  option domain-search \"corp.example\";\n")
    ∧ ((![8, 8, 8, 8] : in_addr) ≠ ![0, 0, 0, 0] ∧ (![1, 1, 1, 1] : in_addr) ≠ ![0, 0, 0, 0]
      ∧ write_dns "" ⟨⟨"ppp0", 1, 1⟩,
          ⟨![8, 8, 8, 8], ![1, 1, 1, 1], none, [], example_gtw_rt⟩⟩
        = "  option domain-name-servers 8.8.8.8, 1.1.1.1;\n")
    ∧ ((![8, 8, 8, 8] : in_addr) ≠ ![0, 0, 0, 0] ∧ (![0, 0, 0, 0] : in_addr) = ![0, 0, 0, 0]
      ∧ write_dns "" ⟨⟨"ppp0", 1, 1⟩,
          ⟨![8, 8, 8, 8], ![0, 0, 0, 0], none, [], example_gtw_rt⟩⟩
        = "  option domain-name-servers 8.8.8.8;\n") :=
  ⟨⟨rfl, ((write_dns_secondary "" ⟨⟨"ppp0", 1, 1⟩,
      ⟨![0, 0, 0, 0], ![1, 1, 1, 1], some "corp.example", [], example_gtw_rt⟩⟩).1 rfl).trans
      (by decide)⟩,
   ⟨by decide, by decide, ((write_dns_secondary "" ⟨⟨"ppp0", 1, 1⟩,
      ⟨![8, 8, 8, 8], ![1, 1, 1, 1], none, [], example_gtw_rt⟩⟩).2.1
      (by decide) (by decide)).trans (by decide)⟩,
   ⟨by decide, rfl, ((write_dns_secondary "" ⟨⟨"ppp0", 1, 1⟩,
      ⟨![8, 8, 8, 8], ![0, 0, 0, 0], none, [], example_gtw_rt⟩⟩).2.2
      (by decide) rfl).trans (by decide)⟩⟩

set_option maxRecDepth 100000 in
/-- Witness for C2: one route in each range of prefix lengths, and the mask 0.0.0.0. -/
theorem format_route_destination_octets_witness :
    (24 < prefix_length example_route_32
      ∧ format_route example_route_32 example_if_addr = "32, 172, 16, 9, 1, 10, 0, 0, 5"
      ∧ emitted_values (format_route example_route_32 example_if_addr) = 1 + 4 + 4)
    ∧ ((16 < prefix_length example_route_24 ∧ prefix_length example_route_24 ≤ 24)
      ∧ format_route example_route_24 example_if_addr = "24, 192, 168, 7, 10, 0, 0, 5"
      ∧ emitted_values (format_route example_route_24 example_if_addr) = 1 + 3 + 4)
    ∧ ((8 ≤ prefix_length example_route_16 ∧ prefix_length example_route_16 ≤ 16)
      ∧ format_route example_route_16 example_if_addr = "16, 10, 1, 10, 0, 0, 5"
      ∧ emitted_values (format_route example_route_16 example_if_addr) = 1 + 2 + 4)
    ∧ (prefix_length example_route_2 < 8
      ∧ format_route example_route_2 example_if_addr = "2, 64, 10, 0, 0, 5"
      ∧ emitted_values (format_route example_route_2 example_if_addr) = 1 + 1 + 4)
    ∧ (example_route_0.rt_genmask.sin_addr = ![0, 0, 0, 0]
      ∧ prefix_length example_route_0 = 0
      ∧ format_route example_route_0 example_if_addr = "0, 0, 10, 0, 0, 5"
      ∧ emitted_values (format_route example_route_0 example_if_addr) = 1 + 1 + 4) :=
  ⟨⟨by decide,
    (((format_route_destination_octets example_route_32 example_if_addr).2.1
      (by decide)).1).trans (by decide),
    ((format_route_destination_octets example_route_32 example_if_addr).2.1 (by decide)).2⟩,
   ⟨by decide,
    (((format_route_destination_octets example_route_24 example_if_addr).2.2.1
      (by decide)).1).trans (by decide),
    ((format_route_destination_octets example_route_24 example_if_addr).2.2.1
      (by decide)).2⟩,
   ⟨by decide,
    (((format_route_destination_octets example_route_16 example_if_addr).2.2.2.1
      (by decide)).1).trans (by decide),
    ((format_route_destination_octets example_route_16 example_if_addr).2.2.2.1
      (by decide)).2⟩,
   ⟨by decide,
    (((format_route_destination_octets example_route_2 example_if_addr).2.2.2.2.1
      (by decide)).1).trans (by decide),
    ((format_route_destination_octets example_route_2 example_if_addr).2.2.2.2.1
      (by decide)).2⟩,
   ⟨rfl,
    ((format_route_destination_octets example_route_0 example_if_addr).2.2.2.2.2 rfl).1,
    (((format_route_destination_octets example_route_0 example_if_addr).2.2.2.2.2 rfl).2.1).trans
      (by decide),
    ((format_route_destination_octets example_route_0 example_if_addr).2.2.2.2.2 rfl).2.2⟩⟩


/-! ## Closed form of `write_dhcpd_config` -/

theorem write_dns_append (file : String) (tun : tunnel) :
    write_dns file tun = file ++ write_dns "" tun := by
  simp only [write_dns]
  split_ifs <;> cases tun.ipv4.dns_suffix <;> (apply String.ext; simp)

theorem write_routes_append (file : String) (tun : tunnel) (if_addr : in_addr) :
    write_routes file tun if_addr = file ++ write_routes "" tun if_addr := by
  by_cases hs : tun.ipv4.split_rt = []
  · rw [write_routes_no_split file tun if_addr hs, write_routes_no_split "" tun if_addr hs]
    simp [String.append_assoc]
  · by_cases hk : kept_routes tun = []
    · rw [write_routes_all_excluded file tun if_addr hs hk,
        write_routes_all_excluded "" tun if_addr hs hk]
      simp
    · rw [write_routes_kept file tun if_addr hk, write_routes_kept "" tun if_addr hk]
      simp [String.append_assoc]

theorem write_dhcpd_config_resolved (getifaddrs : Option (List ifaddrs)) (tun : tunnel)
    (if_addr : in_addr) (h : get_if_addr_octet getifaddrs tun = some if_addr) :
    write_dhcpd_config true getifaddrs tun
      = (0, some (subnet_head if_addr
          ++ (if tun.config.set_dns ≠ 0 then write_dns "" tun else "")
          ++ (if tun.config.set_routes ≠ 0 then write_routes "" tun if_addr else "")
          ++ "\x7d\n")) := by
  have hfile : ("" : String)
      ++ "option rfc3442-classless-static-routes code 121 = array of integer 8;\n"
      ++ "option ms-classless-static-routes code 249 = array of integer 8;\n\n"
      ++ "subnet " ++ u (if_addr 0).val ++ "." ++ u (if_addr 1).val ++ "."
      ++ u (if_addr 2).val ++ ".0 netmask 255.255.255.0 \x7b\n"
      ++ "  range " ++ u (if_addr 0).val ++ "." ++ u (if_addr 1).val ++ "."
      ++ u (if_addr 2).val ++ ".100 " ++ u (if_addr 0).val ++ "." ++ u (if_addr 1).val
      ++ "." ++ u (if_addr 2).val ++ ".200;\n" = subnet_head if_addr := by
    simp only [subnet_head, String.empty_append]
  simp only [write_dhcpd_config, h, Bool.not_true, Bool.false_eq_true, if_false, hfile]
  by_cases hd : tun.config.set_dns ≠ 0 <;> by_cases hr : tun.config.set_routes ≠ 0
  · rw [if_pos hd, if_pos hr, if_pos hd, if_pos hr, write_routes_append, write_dns_append]
  · rw [if_pos hd, if_neg hr, if_pos hd, if_neg hr, write_dns_append, String.append_empty]
  · rw [if_neg hd, if_pos hr, if_neg hd, if_pos hr, write_routes_append, String.append_empty]
  · rw [if_neg hd, if_neg hr, if_neg hd, if_neg hr]
    simp only [String.append_empty]


/-! ## Reading the subnet block back -/

theorem expect_append (l rest : List Char) : expect l (l ++ rest) = some rest := by
  induction l with
  | nil => simp [expect]
  | cons c l ih => simp [expect, ih]

theorem read_number_digits (ds : List Char) (hd : ∀ c ∈ ds, c.isDigit = true) :
    ∀ (acc : Nat) (c : Char) (rest : List Char), c.isDigit = false →
      read_number (ds ++ c :: rest) acc
        = (ds.foldl (fun acc c => acc * 10 + (c.toNat - '0'.toNat)) acc, c :: rest) := by
  induction ds with
  | nil => intro acc c rest hc; simp [read_number, hc]
  | cons d ds ih =>
    intro acc c rest hc
    have hdd : d.isDigit = true := hd d (by simp)
    simp only [List.cons_append, read_number, hdd, if_true, List.foldl_cons]
    exact ih (fun x hx => hd x (by simp [hx])) _ c rest hc

set_option maxRecDepth 100000 in
theorem u_octet_value : ∀ o : Octet,
    (u o.val).data ≠ []
    ∧ (u o.val).data.foldl (fun acc c => acc * 10 + (c.toNat - '0'.toNat)) 0 = o.val := by
  decide

theorem parse_number_u (n : Nat) (hn : n < 256) (c : Char) (rest : List Char)
    (hc : c.isDigit = false) :
    parse_number ((u n).data ++ c :: rest) = some (n, c :: rest) := by
  have hv := u_octet_value ⟨n, hn⟩
  have hd := u_isDigit n
  simp only at hv
  cases hds : (u n).data with
  | nil => exact absurd hds hv.1
  | cons d ds =>
    have hdd : d.isDigit = true := hd d (by simp [hds])
    simp only [parse_number, List.cons_append, hdd, if_true]
    rw [← List.cons_append, ← hds, read_number_digits _ hd 0 c rest hc, hv.2]

theorem parse_address_dotted (a b c d : Nat) (ha : a < 256) (hb : b < 256) (hc : c < 256)
    (hd : d < 256) (x : Char) (rest : List Char) (hx : x.isDigit = false) :
    parse_address (dotted a b c d ++ x :: rest) = some ([a, b, c, d], x :: rest) := by
  have hdot : '.'.isDigit = false := by decide
  simp only [dotted, List.append_assoc, List.cons_append, parse_address,
    parse_number_u a ha '.' _ hdot, parse_number_u b hb '.' _ hdot,
    parse_number_u c hc '.' _ hdot, parse_number_u d hd x rest hx, expect, if_true]

set_option maxRecDepth 100000 in
theorem subnet_head_data (if_addr : in_addr) (tail : String) :
    (subnet_head if_addr ++ tail).data
      = ("option rfc3442-classless-static-routes code 121 = array of integer 8;\n"
          ++ "option ms-classless-static-routes code 249 = array of integer 8;\n\n"
          ++ "subnet ").data
        ++ (dotted (if_addr 0).val (if_addr 1).val (if_addr 2).val 0
        ++ ' ' :: ("netmask 255.255.255.0 \x7b\n  range ".data
        ++ (dotted (if_addr 0).val (if_addr 1).val (if_addr 2).val 100
        ++ ' ' :: (dotted (if_addr 0).val (if_addr 1).val (if_addr 2).val 200
        ++ ';' :: ('\n' :: tail.data))))) := by
  have h0 : (u 0).data = ['0'] := by decide
  have h100 : (u 100).data = ['1', '0', '0'] := by decide
  have h200 : (u 200).data = ['2', '0', '0'] := by decide
  simp [subnet_head, dotted, h0, h100, h200]

theorem parse_subnet_head (if_addr : in_addr) (tail : String) :
    parse_subnet (subnet_head if_addr ++ tail)
      = some ([(if_addr 0).val, (if_addr 1).val, (if_addr 2).val, 0],
              [(if_addr 0).val, (if_addr 1).val, (if_addr 2).val, 100],
              [(if_addr 0).val, (if_addr 1).val, (if_addr 2).val, 200]) := by
  have hsp : ' '.isDigit = false := by decide
  have hsc : ';'.isDigit = false := by decide
  have e1 : (" netmask 255.255.255.0 \x7b\n  range " : String).data
      = ' ' :: ("netmask 255.255.255.0 \x7b\n  range " : String).data := by decide
  have e2 : (" " : String).data = [' '] := by decide
  have e3 : (";\n" : String).data = [';', '\n'] := by decide
  simp only [parse_subnet, subnet_head_data, expect_append]
  rw [parse_address_dotted _ _ _ _ (if_addr 0).isLt (if_addr 1).isLt (if_addr 2).isLt
    (by decide) ' ' _ hsp]
  simp only [e1, e2, e3]
  rw [← List.cons_append, expect_append]
  simp only
  rw [parse_address_dotted _ _ _ _ (if_addr 0).isLt (if_addr 1).isLt (if_addr 2).isLt
    (by decide) ' ' _ hsp]
  simp only [expect, if_true]
  rw [parse_address_dotted _ _ _ _ (if_addr 0).isLt (if_addr 1).isLt (if_addr 2).isLt
    (by decide) ';' _ hsc]
  simp only [expect, if_true]


theorem text_contains_parts (decl S R X : String) :
    text_contains (decl ++ S ++ R ++ X) S ∧ text_contains (decl ++ S ++ R ++ X) R :=
  ⟨⟨decl.data, R.data ++ X.data, by simp only [String.data_append, List.append_assoc]⟩,
   ⟨decl.data ++ S.data, X.data, by simp only [String.data_append, List.append_assoc]⟩⟩

/-- C10: for every resolved interface address a.b.c.d the text generated by
`write_dhcpd_config` contains the line `subnet a.b.c.0 netmask 255.255.255.0 {` and the
line `range a.b.c.100 a.b.c.200;`, and reading the subnet network and the two range
endpoints back out of the text gives a.b.c.0, a.b.c.100 and a.b.c.200, whatever d and the
DNS and route settings are. -/
theorem write_dhcpd_config_subnet_roundtrip (getifaddrs : Option (List ifaddrs))
    (tun : tunnel) (if_addr : in_addr)
    (h : get_if_addr_octet getifaddrs tun = some if_addr) :
    ∃ text, write_dhcpd_config true getifaddrs tun = (0, some text)
      ∧ text_contains text
          ("subnet " ++ u (if_addr 0).val ++ "." ++ u (if_addr 1).val ++ "."
            ++ u (if_addr 2).val ++ ".0 netmask 255.255.255.0 \x7b\n")
      ∧ text_contains text
          ("  range " ++ u (if_addr 0).val ++ "." ++ u (if_addr 1).val ++ "."
            ++ u (if_addr 2).val ++ ".100 " ++ u (if_addr 0).val ++ "." ++ u (if_addr 1).val
            ++ "." ++ u (if_addr 2).val ++ ".200;\n")
      ∧ parse_subnet text
          = some ([(if_addr 0).val, (if_addr 1).val, (if_addr 2).val, 0],
                  [(if_addr 0).val, (if_addr 1).val, (if_addr 2).val, 100],
                  [(if_addr 0).val, (if_addr 1).val, (if_addr 2).val, 200]) := by
  have e : ∀ X : String, subnet_head if_addr ++ X
      = "option rfc3442-classless-static-routes code 121 = array of integer 8;\n"
        ++ "option ms-classless-static-routes code 249 = array of integer 8;\n\n"
        ++ ("subnet " ++ u (if_addr 0).val ++ "." ++ u (if_addr 1).val ++ "."
            ++ u (if_addr 2).val ++ ".0 netmask 255.255.255.0 \x7b\n")
        ++ ("  range " ++ u (if_addr 0).val ++ "." ++ u (if_addr 1).val ++ "."
            ++ u (if_addr 2).val ++ ".100 " ++ u (if_addr 0).val ++ "." ++ u (if_addr 1).val
            ++ "." ++ u (if_addr 2).val ++ ".200;\n")
        ++ X := by
    intro X
    simp only [subnet_head, String.append_assoc]
  refine ⟨_, write_dhcpd_config_resolved getifaddrs tun if_addr h, ?_, ?_, ?_⟩
  · rw [String.append_assoc, String.append_assoc, e]
    exact (text_contains_parts _ _ _ _).1
  · rw [String.append_assoc, String.append_assoc, e]
    exact (text_contains_parts _ _ _ _).2
  · rw [String.append_assoc, String.append_assoc]
    exact parse_subnet_head if_addr _

/-- Witness for C10: the interface `ppp0` resolved to 10.0.0.5. -/
theorem write_dhcpd_config_subnet_roundtrip_witness :
    get_if_addr_octet (some example_ifaddrs) (example_tunnel [example_route_16])
      = some example_if_addr
    ∧ ∃ text, write_dhcpd_config true (some example_ifaddrs) (example_tunnel [example_route_16])
        = (0, some text)
      ∧ text_contains text "subnet 10.0.0.0 netmask 255.255.255.0 \x7b\n"
      ∧ text_contains text "  range 10.0.0.100 10.0.0.200;\n"
      ∧ parse_subnet text = some ([10, 0, 0, 0], [10, 0, 0, 100], [10, 0, 0, 200]) :=
  ⟨by decide,
   write_dhcpd_config_subnet_roundtrip (some example_ifaddrs)
     (example_tunnel [example_route_16]) example_if_addr (by decide)⟩

/-! ## The buffer of `format_route` -/

theorem one_byte_render (values : List Nat) : one_byte_text (render values) := by
  intro c hc
  rcases render_chars values c hc with h | h | h
  · exact isDigit_one_byte c h
  · rw [h]; decide
  · rw [h]; decide

theorem format_route_length (route : rtentry) (if_addr : in_addr) :
    (format_route route if_addr).length ≤ 42 := by
  have hp := u_prefix_length_length route
  have hd0 := u_octet_length (route.rt_dst.sin_addr 0)
  have hd1 := u_octet_length (route.rt_dst.sin_addr 1)
  have hd2 := u_octet_length (route.rt_dst.sin_addr 2)
  have hd3 := u_octet_length (route.rt_dst.sin_addr 3)
  have ha0 := u_octet_length (if_addr 0)
  have ha1 := u_octet_length (if_addr 1)
  have ha2 := u_octet_length (if_addr 2)
  have ha3 := u_octet_length (if_addr 3)
  have hs : ", ".length = 2 := rfl
  simp only [format_route]
  split_ifs <;>
    (rw [snprintf_text_fits _ _
        (by repeat (first | with_reducible exact one_byte_u _
                          | with_reducible exact one_byte_separator
                          | with_reducible apply one_byte_append))
        (by simp only [String.length_append, hs]; omega)]
     simp only [String.length_append, hs]
     omega)

/-- C16: for every route and router address the prefix length computed by `format_route`
is at most 32 and the formatted entry has at most 42 characters, each of one byte, so that
with its terminator it fits the 60 bytes of `output`: `snprintf` stores all the bytes of
the formatted text, and the text of the buffer is the formatted text.  The bound 42 is
reached. -/
theorem format_route_fits_buffer (route : rtentry) (if_addr : in_addr) :
    prefix_length route ≤ 32
    ∧ (render (spec_encode route if_addr)).length ≤ 42
    ∧ (c_bytes (render (spec_encode route if_addr))).length ≤ 42
    ∧ 42 + 1 ≤ 60
    ∧ format_route route if_addr = c_text (snprintf 60 (render (spec_encode route if_addr)))
    ∧ snprintf 60 (render (spec_encode route if_addr))
        = c_bytes (render (spec_encode route if_addr))
    ∧ c_text (snprintf 60 (render (spec_encode route if_addr)))
        = render (spec_encode route if_addr)
    ∧ (∀ b ∈ snprintf 60 (render (spec_encode route if_addr)), b.toNat < 128)
    ∧ (format_route route if_addr).length ≤ 42
    ∧ (format_route ⟨⟨AF_INET, ![255, 255, 255, 255]⟩, ⟨AF_INET, ![255, 255, 255, 255]⟩,
        ⟨AF_INET, ![0, 0, 0, 0]⟩⟩ ![255, 255, 255, 255]).length = 42 := by
  have hlen := format_route_length route if_addr
  have heq := format_route_eq route if_addr
  have hone := one_byte_render (spec_encode route if_addr)
  have hrl : (render (spec_encode route if_addr)).length ≤ 42 := by rw [← heq]; exact hlen
  have hbl : (c_bytes (render (spec_encode route if_addr))).length ≤ 42 := by
    rw [c_bytes_length_one_byte _ hone]; exact hrl
  have hfit : snprintf 60 (render (spec_encode route if_addr))
      = c_bytes (render (spec_encode route if_addr)) :=
    snprintf_fits _ _ (by omega)
  have htext : c_text (snprintf 60 (render (spec_encode route if_addr)))
      = render (spec_encode route if_addr) :=
    snprintf_text_fits _ _ hone (by omega)
  refine ⟨prefix_length_le route, hrl, hbl, by decide, ?_, hfit, htext, ?_, hlen, by decide⟩
  · rw [htext]
    exact heq
  · rw [hfit]
    exact c_bytes_lt_one_byte _ hone

/-! ## The sequences `start_dhcpd` and `stop_dhcpd` -/

theorem snprintf_length (size : Nat) (s : String) :
    (snprintf size s).length = min (size - 1) (c_bytes s).length :=
  List.length_take _ _

theorem up_line_length (name : String) :
    (c_bytes ("ifconfig " ++ name ++ " up")).length = (c_bytes name).length + 12 := by
  have a : (c_bytes "ifconfig ").length = 9 := by decide
  have b : (c_bytes " up").length = 3 := by decide
  rw [c_bytes_append, c_bytes_append, List.length_append, List.length_append, a, b]
  omega

theorem down_line_length (name : String) :
    (c_bytes ("ifconfig " ++ name ++ " down")).length = (c_bytes name).length + 14 := by
  have a : (c_bytes "ifconfig ").length = 9 := by decide
  have b : (c_bytes " down").length = 5 := by decide
  rw [c_bytes_append, c_bytes_append, List.length_append, List.length_append, a, b]
  omega

theorem take_eq_self_iff_length {α : Type} (l : List α) (n : Nat) :
    l.take n = l ↔ l.length ≤ n := by
  constructor
  · intro h
    have e := congrArg List.length h
    rw [List.length_take] at e
    omega
  · exact List.take_of_length_le

theorem write_dhcpd_config_unresolved (fopen_ok : Bool) (getifaddrs : Option (List ifaddrs))
    (tun : tunnel) (h : get_if_addr_octet getifaddrs tun = none) :
    write_dhcpd_config fopen_ok getifaddrs tun = (-1, if fopen_ok then some "" else none) := by
  cases fopen_ok <;> simp [write_dhcpd_config, h]

/-- C12: when the interface address cannot be resolved, `write_dhcpd_config` returns -1
and has written no text at all to the stream (if one was opened), and `start_dhcpd`
returns -1 without attempting a further step; with the file opened and the address
resolved, `write_dhcpd_config` returns 0 with the complete text. -/
theorem write_dhcpd_config_all_or_nothing (fopen_ok : Bool)
    (getifaddrs : Option (List ifaddrs)) (system : List UInt8 → Int) (tun : tunnel) :
    (get_if_addr_octet getifaddrs tun = none →
      (write_dhcpd_config fopen_ok getifaddrs tun).1 = -1
      ∧ (write_dhcpd_config fopen_ok getifaddrs tun).2 = (if fopen_ok then some "" else none)
      ∧ start_dhcpd fopen_ok getifaddrs system tun = (-1, [step.write_dhcpd_config]))
    ∧ (∀ if_addr, get_if_addr_octet getifaddrs tun = some if_addr →
      write_dhcpd_config true getifaddrs tun
        = (0, some (subnet_head if_addr
            ++ (if tun.config.set_dns ≠ 0 then write_dns "" tun else "")
            ++ (if tun.config.set_routes ≠ 0 then write_routes "" tun if_addr else "")
            ++ "\x7d\n"))) := by
  constructor
  · intro h
    have hw := write_dhcpd_config_unresolved fopen_ok getifaddrs tun h
    refine ⟨by rw [hw], by rw [hw], ?_⟩
    simp [start_dhcpd, hw]
  · intro if_addr h
    exact write_dhcpd_config_resolved getifaddrs tun if_addr h

/-- Witness for C12: an interface list without `ppp0`, and one that resolves `ppp0` to
10.0.0.5. -/
theorem write_dhcpd_config_all_or_nothing_witness :
    (get_if_addr_octet (some [⟨"lo", some ⟨AF_INET, ![127, 0, 0, 1]⟩⟩]) (example_tunnel []) = none
      ∧ (write_dhcpd_config true (some [⟨"lo", some ⟨AF_INET, ![127, 0, 0, 1]⟩⟩])
          (example_tunnel [])).1 = -1
      ∧ (write_dhcpd_config true (some [⟨"lo", some ⟨AF_INET, ![127, 0, 0, 1]⟩⟩])
          (example_tunnel [])).2 = some ""
      ∧ start_dhcpd true (some [⟨"lo", some ⟨AF_INET, ![127, 0, 0, 1]⟩⟩]) (fun _ => 0)
          (example_tunnel []) = (-1, [step.write_dhcpd_config]))
    ∧ (get_if_addr_octet (some example_ifaddrs) (example_tunnel []) = some example_if_addr
      ∧ write_dhcpd_config true (some example_ifaddrs) (example_tunnel [])
        = (0, some (subnet_head example_if_addr
            ++ (if (example_tunnel []).config.set_dns ≠ 0 then write_dns "" (example_tunnel [])
                else "")
            ++ (if (example_tunnel []).config.set_routes ≠ 0
                then write_routes "" (example_tunnel []) example_if_addr else "")
            ++ "\x7d\n"))) :=
  ⟨⟨by decide,
    (write_dhcpd_config_all_or_nothing true (some [⟨"lo", some ⟨AF_INET, ![127, 0, 0, 1]⟩⟩])
      (fun _ => 0) (example_tunnel [])).1 (by decide)⟩,
   ⟨by decide,
    (write_dhcpd_config_all_or_nothing true (some example_ifaddrs) (fun _ => 0)
      (example_tunnel [])).2 example_if_addr (by decide)⟩⟩

/-- C13, as the code has it: `start_dhcpd` attempts, in this order, the configuration
write, the command of its buffer and `rc-service dhcpd restart`; `stop_dhcpd` attempts
`rc-service dhcpd stop` and then the command of its buffer.  The two buffers hold the first
`IF_NAMESIZE + 11` bytes of `ifconfig <name> up` and the first `IF_NAMESIZE + 13` bytes of
`ifconfig <name> down`, which are the whole interface up and interface down commands
exactly when the name has at most `IF_NAMESIZE - 1` bytes.  Each function returns 0
exactly when all its steps succeeded and -1 otherwise, and its trace ends with the first
step that failed. -/
theorem dhcpd_sequences_all_or_nothing (fopen_ok : Bool)
    (getifaddrs : Option (List ifaddrs)) (system : List UInt8 → Int) (tun : tunnel) :
    let name := tun.config.dhcpd_ifname
    let up_line := (c_bytes ("ifconfig " ++ name ++ " up")).take (IF_NAMESIZE + 11)
    let down_line := (c_bytes ("ifconfig " ++ name ++ " down")).take (IF_NAMESIZE + 13)
    let restart_line := c_bytes "rc-service dhcpd restart"
    let stop_line := c_bytes "rc-service dhcpd stop"
    let written := (write_dhcpd_config fopen_ok getifaddrs tun).1 = 0
    let up := system up_line = 0
    let restarted := system restart_line = 0
    let stopped := system stop_line = 0
    let down := system down_line = 0
    let start := start_dhcpd fopen_ok getifaddrs system tun
    let stop := stop_dhcpd system tun
    ((c_bytes name).length ≤ IF_NAMESIZE - 1 →
      up_line = c_bytes ("ifconfig " ++ name ++ " up")
      ∧ down_line = c_bytes ("ifconfig " ++ name ++ " down"))
    ∧ (IF_NAMESIZE - 1 < (c_bytes name).length →
      up_line ≠ c_bytes ("ifconfig " ++ name ++ " up")
      ∧ down_line ≠ c_bytes ("ifconfig " ++ name ++ " down"))
    ∧ (start.1 = 0 ↔ written ∧ up ∧ restarted)
    ∧ (start.1 = 0 ∨ start.1 = -1)
    ∧ start.2
        = (if ¬ written then [step.write_dhcpd_config]
           else if ¬ up then [step.write_dhcpd_config, step.system up_line]
           else [step.write_dhcpd_config, step.system up_line, step.system restart_line])
    ∧ (stop.1 = 0 ↔ stopped ∧ down)
    ∧ (stop.1 = 0 ∨ stop.1 = -1)
    ∧ stop.2
        = (if ¬ stopped then [step.system stop_line]
           else [step.system stop_line, step.system down_line]) := by
  intro name up_line down_line restart_line stop_line written up restarted stopped down
    start stop
  have hn : IF_NAMESIZE = 16 := rfl
  have h1 := up_line_length name
  have h2 := down_line_length name
  have eu : up_command tun = up_line := rfl
  have ed : down_command tun = down_line := rfl
  refine ⟨?_, ?_, ?_⟩
  · intro h
    exact ⟨List.take_of_length_le (by rw [h1]; omega),
      List.take_of_length_le (by rw [h2]; omega)⟩
  · intro h
    constructor
    · intro e
      have := (take_eq_self_iff_length _ _).mp e
      omega
    · intro e
      have := (take_eq_self_iff_length _ _).mp e
      omega
  · simp only [start, stop, start_dhcpd, stop_dhcpd, written, up, restarted, stopped, down,
      eu, ed]
    by_cases h1 : (write_dhcpd_config fopen_ok getifaddrs tun).1 = 0 <;>
    by_cases h2 : system up_line = 0 <;>
    by_cases h3 : system restart_line = 0 <;>
    by_cases h4 : system stop_line = 0 <;>
    by_cases h5 : system down_line = 0 <;>
    simp [h1, h2, h3, h4, h5]

set_option maxRecDepth 100000 in
/-- Witness for C13 as amended: the name `ppp0`, resolved to 10.0.0.5, with every step
succeeding, and the name `abcdefghijklmnopqrst` of 20 bytes. -/
theorem dhcpd_sequences_all_or_nothing_witness :
    ((c_bytes "ppp0").length ≤ IF_NAMESIZE - 1
      ∧ start_dhcpd true (some example_ifaddrs) (fun _ => 0) (example_tunnel [])
          = (0, [step.write_dhcpd_config, step.system (c_bytes "ifconfig ppp0 up"),
                 step.system (c_bytes "rc-service dhcpd restart")])
      ∧ stop_dhcpd (fun _ => 0) (example_tunnel [])
          = (0, [step.system (c_bytes "rc-service dhcpd stop"),
                 step.system (c_bytes "ifconfig ppp0 down")]))
    ∧ (IF_NAMESIZE - 1 < (c_bytes "abcdefghijklmnopqrst").length
      ∧ (c_bytes ("ifconfig " ++ "abcdefghijklmnopqrst" ++ " down")).take (IF_NAMESIZE + 13)
          ≠ c_bytes ("ifconfig " ++ "abcdefghijklmnopqrst" ++ " down")) :=
  have h := dhcpd_sequences_all_or_nothing true (some example_ifaddrs) (fun _ => 0)
    (example_tunnel [])
  ⟨⟨by decide,
    Prod.ext ((h.2.2.1).mpr (by decide)) (h.2.2.2.2.1.trans (by decide)),
    Prod.ext ((h.2.2.2.2.2.1).mpr (by decide)) (h.2.2.2.2.2.2.2.trans (by decide))⟩,
   ⟨by decide,
    ((dhcpd_sequences_all_or_nothing true none (fun _ => 0)
      ⟨⟨"abcdefghijklmnopqrst", 1, 1⟩, (example_tunnel []).ipv4⟩).2.1 (by decide)).2⟩⟩

set_option maxRecDepth 100000 in
/-- C13, counterexample: with the interface name `abcdefghijklmnopqrst` of 20 bytes and
every command succeeding, `stop_dhcpd` returns 0 and its second step runs the command
`ifconfig abcdefghijklmnopqrst`: no interface down command is attempted. -/
theorem stop_dhcpd_no_interface_down :
    stop_dhcpd (fun _ => 0) ⟨⟨"abcdefghijklmnopqrst", 1, 1⟩, (example_tunnel []).ipv4⟩
      = (0, [step.system (c_bytes "rc-service dhcpd stop"),
             step.system (c_bytes "ifconfig abcdefghijklmnopqrst")])
    ∧ step.system (c_bytes "ifconfig abcdefghijklmnopqrst down")
        ∉ (stop_dhcpd (fun _ => 0)
            ⟨⟨"abcdefghijklmnopqrst", 1, 1⟩, (example_tunnel []).ipv4⟩).2 := by
  decide

/-- C17: for an interface name of at most `IF_NAMESIZE - 1` bytes the buffers of
`start_dhcpd` and `stop_dhcpd` hold all the bytes of `ifconfig <name> up` and
`ifconfig <name> down`, and with their terminator these fit the `IF_NAMESIZE + 12` and
`IF_NAMESIZE + 14` bytes of the buffers; for a longer name `snprintf` stores the first
`IF_NAMESIZE + 11` and `IF_NAMESIZE + 13` bytes, which with the terminator fill the
buffers exactly.  For every name the stored bytes and their terminator stay within the
buffer, and the stored bytes are the command passed to `system`. -/
theorem if_command_fits_buffer (tun : tunnel) :
    let name := tun.config.dhcpd_ifname
    ((c_bytes name).length ≤ IF_NAMESIZE - 1 →
      up_command tun = c_bytes ("ifconfig " ++ name ++ " up")
      ∧ (up_command tun).length + 1 ≤ IF_NAMESIZE + 12
      ∧ down_command tun = c_bytes ("ifconfig " ++ name ++ " down")
      ∧ (down_command tun).length + 1 ≤ IF_NAMESIZE + 14)
    ∧ (IF_NAMESIZE - 1 < (c_bytes name).length →
      up_command tun = (c_bytes ("ifconfig " ++ name ++ " up")).take (IF_NAMESIZE + 12 - 1)
      ∧ (up_command tun).length + 1 = IF_NAMESIZE + 12
      ∧ down_command tun
          = (c_bytes ("ifconfig " ++ name ++ " down")).take (IF_NAMESIZE + 14 - 1)
      ∧ (down_command tun).length + 1 = IF_NAMESIZE + 14)
    ∧ (up_command tun).length + 1 ≤ IF_NAMESIZE + 12
    ∧ (down_command tun).length + 1 ≤ IF_NAMESIZE + 14
    ∧ (∀ (getifaddrs : Option (List ifaddrs)) (system : List UInt8 → Int),
        (write_dhcpd_config true getifaddrs tun).1 = 0 →
        (start_dhcpd true getifaddrs system tun).2.take 2
          = [step.write_dhcpd_config, step.system (up_command tun)])
    ∧ (∀ system : List UInt8 → Int, system (c_bytes "rc-service dhcpd stop") = 0 →
        (stop_dhcpd system tun).2
          = [step.system (c_bytes "rc-service dhcpd stop"),
             step.system (down_command tun)]) := by
  intro name
  have h1 := up_line_length name
  have h2 := down_line_length name
  have hn : IF_NAMESIZE = 16 := rfl
  have l1 : (up_command tun).length
      = min (IF_NAMESIZE + 12 - 1) (c_bytes ("ifconfig " ++ name ++ " up")).length :=
    snprintf_length _ _
  have l2 : (down_command tun).length
      = min (IF_NAMESIZE + 14 - 1) (c_bytes ("ifconfig " ++ name ++ " down")).length :=
    snprintf_length _ _
  refine ⟨?_, ?_, by omega, by omega, ?_, ?_⟩
  · intro h
    have e1 : up_command tun = c_bytes ("ifconfig " ++ name ++ " up") :=
      snprintf_fits _ _ (by rw [h1]; omega)
    have e2 : down_command tun = c_bytes ("ifconfig " ++ name ++ " down") :=
      snprintf_fits _ _ (by rw [h2]; omega)
    exact ⟨e1, by omega, e2, by omega⟩
  · intro h
    exact ⟨rfl, by omega, rfl, by omega⟩
  · intro getifaddrs system hw
    simp only [start_dhcpd, hw]
    by_cases a : system (up_command tun) = 0 <;>
    by_cases b : system (c_bytes "rc-service dhcpd restart") = 0 <;> simp [a, b]
  · intro system hs
    simp only [stop_dhcpd, hs]
    by_cases a : system (down_command tun) = 0 <;> simp [a]

set_option maxRecDepth 100000 in
/-- Witness for C17: the name `ppp0`, and a name of 15 characters of two bytes each, for
which the buffers hold 27 and 29 bytes. -/
theorem if_command_fits_buffer_witness :
    ((c_bytes "ppp0").length ≤ IF_NAMESIZE - 1
      ∧ up_command (example_tunnel []) = c_bytes "ifconfig ppp0 up"
      ∧ down_command (example_tunnel []) = c_bytes "ifconfig ppp0 down")
    ∧ (IF_NAMESIZE - 1 < (c_bytes "ééééééééééééééé").length
      ∧ up_command ⟨⟨"ééééééééééééééé", 1, 1⟩, (example_tunnel []).ipv4⟩
          = c_bytes "ifconfig ééééééééé"
      ∧ (c_bytes "ifconfig ééééééééé").length = 27
      ∧ down_command ⟨⟨"ééééééééééééééé", 1, 1⟩, (example_tunnel []).ipv4⟩
          = c_bytes "ifconfig éééééééééé"
      ∧ (c_bytes "ifconfig éééééééééé").length = 29) :=
  ⟨⟨by decide,
    ((if_command_fits_buffer (example_tunnel [])).1 (by decide)).1.trans (by decide),
    ((if_command_fits_buffer (example_tunnel [])).1 (by decide)).2.2.1.trans (by decide)⟩,
   ⟨by decide,
    ((if_command_fits_buffer ⟨⟨"ééééééééééééééé", 1, 1⟩, (example_tunnel []).ipv4⟩).2.1
      (by decide)).1.trans (by decide),
    by decide,
    ((if_command_fits_buffer ⟨⟨"ééééééééééééééé", 1, 1⟩, (example_tunnel []).ipv4⟩).2.1
      (by decide)).2.2.1.trans (by decide),
    by decide⟩⟩

/-! ## The lines of `write_dns` -/

theorem write_dns_eq (file : String) (tun : tunnel) :
    write_dns file tun = file ++ nameservers_line tun ++ search_line tun := by
  simp only [write_dns, nameservers_line, search_line, ← s_addr_eq_zero]
  by_cases h1 : s_addr tun.ipv4.ns1_addr = 0 <;>
  by_cases h2 : s_addr tun.ipv4.ns2_addr = 0 <;>
  cases tun.ipv4.dns_suffix <;>
  (simp only [h1, h2, ne_eq, not_true_eq_false, not_false_eq_true, if_true, if_false]
   apply String.ext
   simp)

theorem inet_ntop_chars (a : in_addr) (c : Char) (hc : c ∈ (inet_ntop a).data) :
    c.isDigit = true ∨ c = '.' := by
  simp only [inet_ntop, String.data_append, List.mem_append] at hc
  rcases hc with (((((( hc | hc) | hc) | hc) | hc) | hc) | hc)
  · exact Or.inl (u_isDigit _ c hc)
  · right; simpa using hc
  · exact Or.inl (u_isDigit _ c hc)
  · right; simpa using hc
  · exact Or.inl (u_isDigit _ c hc)
  · right; simpa using hc
  · exact Or.inl (u_isDigit _ c hc)

theorem nameservers_line_chars (tun : tunnel) (c : Char)
    (hc : c ∈ (nameservers_line tun).data) :
    c.isDigit = true ∨ c ∈ "  option domain-name-servers .,;\n".data := by
  have hhead : ∀ x ∈ "  option domain-name-servers ".data,
      x ∈ "  option domain-name-servers .,;\n".data := by decide
  have hsep : ∀ x ∈ ", ".data, x ∈ "  option domain-name-servers .,;\n".data := by decide
  have hend : ∀ x ∈ ";\n".data, x ∈ "  option domain-name-servers .,;\n".data := by decide
  have hntop : ∀ a : in_addr, c ∈ (inet_ntop a).data →
      c.isDigit = true ∨ c ∈ "  option domain-name-servers .,;\n".data := by
    intro a ha
    rcases inet_ntop_chars a c ha with h | h
    · exact Or.inl h
    · right; subst h; decide
  simp only [nameservers_line] at hc
  by_cases h1 : tun.ipv4.ns1_addr = ![0, 0, 0, 0]
  · rw [if_pos h1] at hc
    exact absurd hc (List.not_mem_nil c)
  · rw [if_neg h1] at hc
    by_cases h2 : tun.ipv4.ns2_addr = ![0, 0, 0, 0]
    · rw [if_pos h2, String.data_append, String.data_append, String.data_append] at hc
      rcases List.mem_append.mp hc with hc | hc
      · rcases List.mem_append.mp hc with hc | hc
        · rcases List.mem_append.mp hc with hc | hc
          · exact Or.inr (hhead c hc)
          · exact hntop _ hc
        · exact absurd hc (List.not_mem_nil c)
      · exact Or.inr (hend c hc)
    · rw [if_neg h2, String.data_append, String.data_append, String.data_append,
        String.data_append] at hc
      rcases List.mem_append.mp hc with hc | hc
      · rcases List.mem_append.mp hc with hc | hc
        · rcases List.mem_append.mp hc with hc | hc
          · exact Or.inr (hhead c hc)
          · exact hntop _ hc
        · rcases List.mem_append.mp hc with hc | hc
          · exact Or.inr (hsep c hc)
          · exact hntop _ hc
      · exact Or.inr (hend c hc)

/-- C15: `write_dns` emits the line `option domain-search "<suffix>";` exactly when a
search suffix is configured, whatever the nameservers are: with a suffix and no primary
nameserver the output is that line alone, and when both lines are present the
`domain-search` line follows the `domain-name-servers` line. -/
theorem write_dns_search (file : String) (tun : tunnel) :
    (∀ suffix, tun.ipv4.dns_suffix = some suffix →
      write_dns file tun
        = file ++ nameservers_line tun ++ "  option domain-search \"" ++ suffix ++ "\";\n")
    ∧ (tun.ipv4.dns_suffix = none → write_dns file tun = file ++ nameservers_line tun)
    ∧ (text_contains (write_dns "" tun) "option domain-search"
        ↔ tun.ipv4.dns_suffix ≠ none)
    ∧ (∀ suffix, tun.ipv4.dns_suffix = some suffix → tun.ipv4.ns1_addr = ![0, 0, 0, 0] →
        write_dns file tun = file ++ "  option domain-search \"" ++ suffix ++ "\";\n")
    ∧ (∀ ns1 ns2 : in_addr,
        search_line { tun with ipv4 := { tun.ipv4 with ns1_addr := ns1, ns2_addr := ns2 } }
          = search_line tun) := by
  have hsome : ∀ suffix, tun.ipv4.dns_suffix = some suffix →
      write_dns file tun
        = file ++ nameservers_line tun ++ "  option domain-search \"" ++ suffix ++ "\";\n" := by
    intro suffix hs
    rw [write_dns_eq]
    simp only [search_line, hs, String.append_assoc]
  have hnone : tun.ipv4.dns_suffix = none → write_dns file tun = file ++ nameservers_line tun := by
    intro hs
    rw [write_dns_eq]
    simp only [search_line, hs, String.append_empty]
  refine ⟨hsome, hnone, ?_, ?_, fun _ _ => rfl⟩
  · constructor
    · intro hc hs
      have e : write_dns "" tun = nameservers_line tun := by
        rw [write_dns_eq]
        simp only [search_line, hs, String.append_empty, String.empty_append]
      rw [e] at hc
      refine not_text_contains_of_char _ _ 'h' (by decide) ?_ hc
      intro hm
      rcases nameservers_line_chars tun _ hm with h | h
      · exact absurd h (by decide)
      · exact absurd h (by decide)
    · intro hs
      cases hsuf : tun.ipv4.dns_suffix with
      | none => exact absurd hsuf hs
      | some suffix =>
        rw [write_dns_eq]
        simp only [search_line, hsuf]
        refine ⟨("" ++ nameservers_line tun).data ++ "  ".data,
          " \"".data ++ suffix.data ++ "\";\n".data, ?_⟩
        simp [String.data_append]
  · intro suffix hs h1
    rw [hsome suffix hs]
    simp only [nameservers_line, h1, if_true, String.append_empty]


set_option maxRecDepth 100000 in
/-- Witness for C15: the suffix `corp.example` without a primary nameserver, and no
suffix with the nameserver 8.8.8.8. -/
theorem write_dns_search_witness :
    ((⟨⟨"ppp0", 1, 1⟩, ⟨![0, 0, 0, 0], ![1, 1, 1, 1], some "corp.example", [],
          example_gtw_rt⟩⟩ : tunnel).ipv4.dns_suffix = some "corp.example"
      ∧ (![0, 0, 0, 0] : in_addr) = ![0, 0, 0, 0]
      ∧ write_dns "" ⟨⟨"ppp0", 1, 1⟩, ⟨![0, 0, 0, 0], ![1, 1, 1, 1], some "corp.example", [],
          example_gtw_rt⟩⟩ = "  option domain-search \"corp.example\";\n")
    ∧ ((⟨⟨"ppp0", 1, 1⟩, ⟨![8, 8, 8, 8], ![0, 0, 0, 0], none, [],
          example_gtw_rt⟩⟩ : tunnel).ipv4.dns_suffix = none
      ∧ write_dns "" ⟨⟨"ppp0", 1, 1⟩, ⟨![8, 8, 8, 8], ![0, 0, 0, 0], none, [],
          example_gtw_rt⟩⟩ = "  option domain-name-servers 8.8.8.8;\n") :=
  ⟨⟨rfl, rfl,
    ((write_dns_search "" ⟨⟨"ppp0", 1, 1⟩, ⟨![0, 0, 0, 0], ![1, 1, 1, 1],
      some "corp.example", [], example_gtw_rt⟩⟩).2.2.2.1 "corp.example" rfl rfl).trans
      (by decide)⟩,
   ⟨rfl,
    ((write_dns_search "" ⟨⟨"ppp0", 1, 1⟩, ⟨![8, 8, 8, 8], ![0, 0, 0, 0], none, [],
      example_gtw_rt⟩⟩).2.1 rfl).trans (by decide)⟩⟩

/-! ## The layout of the generated text -/

theorem intercalate_chars (sep : String) (es : List String) (c : Char)
    (hc : c ∈ (sep.intercalate es).data) : c ∈ sep.data ∨ ∃ e ∈ es, c ∈ e.data := by
  cases es with
  | nil => simp [String.intercalate] at hc
  | cons e es =>
    rw [intercalate_data, List.mem_append] at hc
    rcases hc with hc | hc
    · exact Or.inr ⟨e, by simp, hc⟩
    · rw [List.mem_flatten] at hc
      obtain ⟨l, hl, hcl⟩ := hc
      rw [List.mem_map] at hl
      obtain ⟨x, hx, rfl⟩ := hl
      rcases List.mem_append.mp hcl with h | h
      · exact Or.inl h
      · exact Or.inr ⟨x, by simp [hx], h⟩

theorem kept_entries_chars (tun : tunnel) (if_addr : in_addr) (e : String)
    (he : e ∈ kept_entries tun if_addr) (c : Char) (hc : c ∈ e.data) : plain_char c := by
  simp only [kept_entries, List.mem_map] at he
  obtain ⟨route, _, rfl⟩ := he
  rcases format_route_chars route if_addr c hc with h | h | h
  · exact Or.inl h
  · subst h; exact Or.inr (Or.inr (by decide))
  · subst h; exact Or.inr (Or.inr (by decide))

theorem write_routes_chars (tun : tunnel) (if_addr : in_addr) (c : Char)
    (hc : c ∈ (write_routes "" tun if_addr).data) : plain_char c := by
  by_cases hs : tun.ipv4.split_rt = []
  · rw [write_routes_no_split "" tun if_addr hs, String.empty_append] at hc
    rcases routers_line_chars if_addr c hc with h | h
    · exact Or.inl h
    · exact (by unfold plain_char; decide :
        ∀ x ∈ "  option routers .;\n".data, plain_char x) c h
  · by_cases hk : kept_routes tun = []
    · rw [write_routes_all_excluded "" tun if_addr hs hk] at hc
      exact absurd hc (List.not_mem_nil c)
    · have hsep1 : ∀ x ∈ rfc3442_separator.data, plain_char x := by
        unfold plain_char; decide
      have hsep2 : ∀ x ∈ ms_separator.data, plain_char x := by
        unfold plain_char; decide
      have hh1 : ∀ x ∈ "  option rfc3442-classless-static-routes ".data, plain_char x := by
        unfold plain_char; decide
      have hh2 : ∀ x ∈ "  option ms-classless-static-routes ".data, plain_char x := by
        unfold plain_char; decide
      have hend : ∀ x ∈ ";\n".data, plain_char x := by
        unfold plain_char; decide
      have hint : ∀ sep : String, (∀ x ∈ sep.data, plain_char x) →
          c ∈ (sep.intercalate (kept_entries tun if_addr)).data → plain_char c := by
        intro sep hsep hin
        rcases intercalate_chars sep _ c hin with h | ⟨e, he, h⟩
        · exact hsep c h
        · exact kept_entries_chars tun if_addr e he c h
      rw [write_routes_kept "" tun if_addr hk, String.empty_append] at hc
      simp only [String.data_append] at hc
      rcases List.mem_append.mp hc with hc | hc
      · rcases List.mem_append.mp hc with hc | hc
        · rcases List.mem_append.mp hc with hc | hc
          · rcases List.mem_append.mp hc with hc | hc
            · rcases List.mem_append.mp hc with hc | hc
              · exact hh1 c hc
              · exact hint _ hsep1 hc
            · exact hend c hc
          · exact hh2 c hc
        · exact hint _ hsep2 hc
      · exact hend c hc

theorem u_count_zero (n : Nat) (c : Char) (h : c.isDigit = false) : (u n).data.count c = 0 := by
  rw [List.count_eq_zero]
  intro hm
  rw [u_isDigit n c hm] at h
  exact absurd h (by decide)

theorem count_zero_of_plain (l : List Char) (c : Char) (hl : ∀ x ∈ l, plain_char x)
    (hc : ¬ plain_char c) : l.count c = 0 := by
  rw [List.count_eq_zero]
  intro hm
  exact hc (hl c hm)


theorem nameservers_line_count (tun : tunnel) (c : Char) (hd : c.isDigit = false)
    (hl : c ∉ "  option domain-name-servers .,;\n".data) :
    (nameservers_line tun).data.count c = 0 := by
  rw [List.count_eq_zero]
  intro hm
  rcases nameservers_line_chars tun c hm with h | h
  · rw [h] at hd; exact absurd hd (by decide)
  · exact hl h

theorem search_line_count (tun : tunnel) (c : Char)
    (hl : c ∉ "  option domain-search \"\";\n".data)
    (hs : ∀ s, tun.ipv4.dns_suffix = some s → c ∉ s.data) :
    (search_line tun).data.count c = 0 := by
  rw [List.count_eq_zero]
  intro hm
  simp only [search_line] at hm
  cases hsuf : tun.ipv4.dns_suffix with
  | none =>
    rw [hsuf] at hm
    exact absurd hm (List.not_mem_nil c)
  | some s =>
    rw [hsuf] at hm
    simp only [String.data_append] at hm
    rcases List.mem_append.mp hm with hm | hm
    · rcases List.mem_append.mp hm with hm | hm
      · exact hl ((by decide : ∀ x ∈ "  option domain-search \"".data,
          x ∈ "  option domain-search \"\";\n".data) c hm)
      · exact hs s hsuf hm
    · exact hl ((by decide : ∀ x ∈ "\";\n".data,
        x ∈ "  option domain-search \"\";\n".data) c hm)

theorem subnet_head_lines (if_addr : in_addr) :
    subnet_head if_addr
      = "option rfc3442-classless-static-routes code 121 = array of integer 8;\n"
        ++ "option ms-classless-static-routes code 249 = array of integer 8;\n"
        ++ "\n"
        ++ ("subnet " ++ u (if_addr 0).val ++ "." ++ u (if_addr 1).val ++ "."
            ++ u (if_addr 2).val ++ ".0 netmask 255.255.255.0 \x7b\n")
        ++ ("  range " ++ u (if_addr 0).val ++ "." ++ u (if_addr 1).val ++ "."
            ++ u (if_addr 2).val ++ ".100 " ++ u (if_addr 0).val ++ "." ++ u (if_addr 1).val
            ++ "." ++ u (if_addr 2).val ++ ".200;\n") := by
  have e : "option ms-classless-static-routes code 249 = array of integer 8;\n\n"
      = "option ms-classless-static-routes code 249 = array of integer 8;\n" ++ "\n" := by
    decide
  simp only [subnet_head, e, String.append_assoc]

set_option maxRecDepth 100000 in
theorem subnet_head_braces (if_addr : in_addr) :
    (subnet_head if_addr).data.count '\x7b' = 1 ∧ (subnet_head if_addr).data.count '\x7d' = 0 := by
  have h1 : ('\x7b' : Char).isDigit = false := by decide
  have h2 : ('\x7d' : Char).isDigit = false := by decide
  constructor
  · simp only [subnet_head, String.data_append, List.count_append, u_count_zero _ _ h1]
    decide
  · simp only [subnet_head, String.data_append, List.count_append, u_count_zero _ _ h2]
    decide

/-! ## Lines of the generated text -/

theorem lines_of_line (l rest : List Char) (h : '\n' ∉ l) :
    lines_of (l ++ '\n' :: rest) = l :: lines_of rest := by
  induction l with
  | nil => simp [lines_of]
  | cons c l ih =>
    have hc : c ≠ '\n' := fun e => h (by simp [e])
    have hl : '\n' ∉ l := fun e => h (by simp [e])
    simp only [List.cons_append, lines_of, hc, if_false, List.append_eq, ih hl]

theorem lines_of_join (ls : List (List Char)) (rest : List Char)
    (h : ∀ l ∈ ls, '\n' ∉ l) : lines_of (join_lines ls ++ rest) = ls ++ lines_of rest := by
  induction ls with
  | nil => simp [join_lines]
  | cons l ls ih =>
    have e : join_lines (l :: ls) ++ rest = l ++ '\n' :: (join_lines ls ++ rest) := by
      simp [join_lines]
    rw [e, lines_of_line l _ (h l (by simp)), ih (fun x hx => h x (by simp [hx]))]
    rfl

theorem join_lines_append (a b : List (List Char)) :
    join_lines (a ++ b) = join_lines a ++ join_lines b := by
  simp [join_lines]

theorem not_prefix_of_head (p a x : List Char) (h : p.take a.length ≠ a.take p.length) :
    ¬ p <+: a ++ x := by
  rintro ⟨t, ht⟩
  apply h
  rcases List.append_eq_append_iff.mp ht with ⟨a', ha, _⟩ | ⟨c', hp, _⟩
  · rw [ha]; simp
  · rw [hp]; simp

theorem not_classless_of_head (a x : List Char)
    (h1 : "  option rfc3442-classless-static-routes ".data.take a.length
      ≠ a.take "  option rfc3442-classless-static-routes ".data.length)
    (h2 : "  option ms-classless-static-routes ".data.take a.length
      ≠ a.take "  option ms-classless-static-routes ".data.length) :
    ¬ is_classless_line (a ++ x) := by
  rintro (h | h)
  · exact not_prefix_of_head _ a x h1 h
  · exact not_prefix_of_head _ a x h2 h


theorem plain_lines_nil : plain_lines [] := ⟨[], rfl, by simp⟩

theorem plain_lines_append (a b : List Char) (ha : plain_lines a) (hb : plain_lines b) :
    plain_lines (a ++ b) := by
  obtain ⟨la, ea, pa⟩ := ha
  obtain ⟨lb, eb, pb⟩ := hb
  refine ⟨la ++ lb, by rw [ea, eb, join_lines_append], ?_⟩
  intro l hl
  rcases List.mem_append.mp hl with h | h
  · exact pa l h
  · exact pb l h

theorem plain_lines_single (l : List Char) (hn : '\n' ∉ l) (hc : ¬ is_classless_line l) :
    plain_lines (l ++ ['\n']) :=
  ⟨[l], by simp [join_lines], by simpa using ⟨hn, hc⟩⟩

theorem plain_lines_lines (text : List Char) (h : plain_lines text) :
    ∀ l ∈ lines_of text, ¬ is_classless_line l := by
  obtain ⟨ls, e, p⟩ := h
  have hl : lines_of text = ls ++ [[]] := by
    have := lines_of_join ls [] (fun l hl => (p l hl).1)
    rw [List.append_nil] at this
    rw [e, this]
    rfl
  intro l hmem
  rw [hl] at hmem
  rcases List.mem_append.mp hmem with h | h
  · exact (p l h).2
  · have : l = [] := by simpa using h
    subst this
    decide

theorem mem_lines_between (a b x : List Char) (ha : plain_lines a) (hb : plain_lines b)
    (hx : '\n' ∉ x) : x ∈ lines_of (a ++ (x ++ ['\n']) ++ b) := by
  obtain ⟨la, ea, pa⟩ := ha
  obtain ⟨lb, eb, pb⟩ := hb
  have e : a ++ (x ++ ['\n']) ++ b = join_lines (la ++ [x] ++ lb) ++ [] := by
    rw [ea, eb, join_lines_append, join_lines_append]
    simp [join_lines]
  rw [e, lines_of_join]
  · simp
  · intro l hl
    rcases List.mem_append.mp hl with h | h
    · rcases List.mem_append.mp h with h | h
      · exact (pa l h).1
      · have : l = x := by simpa using h
        rw [this]; exact hx
    · exact (pb l h).1

theorem nameservers_line_plain (tun : tunnel) : plain_lines (nameservers_line tun).data := by
  by_cases h1 : tun.ipv4.ns1_addr = ![0, 0, 0, 0]
  · simp only [nameservers_line, if_pos h1]
    exact plain_lines_nil
  · have hdig : ∀ a : in_addr, '\n' ∉ (inet_ntop a).data := by
      intro a hm
      rcases inet_ntop_chars a _ hm with h | h
      · exact absurd h (by decide)
      · exact absurd h (by decide)
    have e : (nameservers_line tun).data
        = ("  option domain-name-servers ".data
            ++ ((inet_ntop tun.ipv4.ns1_addr).data
            ++ ((if tun.ipv4.ns2_addr = ![0, 0, 0, 0] then ""
                 else ", " ++ inet_ntop tun.ipv4.ns2_addr).data ++ [';']))) ++ ['\n'] := by
      simp only [nameservers_line, if_neg h1, String.data_append, List.append_assoc]
      rfl
    rw [e]
    apply plain_lines_single
    · intro hm
      rcases List.mem_append.mp hm with hm | hm
      · exact absurd hm (by decide)
      · rcases List.mem_append.mp hm with hm | hm
        · exact hdig _ hm
        · rcases List.mem_append.mp hm with hm | hm
          · split_ifs at hm
            · exact absurd hm (List.not_mem_nil _)
            · rw [String.data_append] at hm
              rcases List.mem_append.mp hm with hm | hm
              · exact absurd hm (by decide)
              · exact hdig _ hm
          · exact absurd hm (by decide)
    · exact not_classless_of_head _ _ (by decide) (by decide)

theorem search_line_plain (tun : tunnel)
    (hn : ∀ s, tun.ipv4.dns_suffix = some s → '\n' ∉ s.data) :
    plain_lines (search_line tun).data := by
  cases hs : tun.ipv4.dns_suffix with
  | none =>
    simp only [search_line, hs]
    exact plain_lines_nil
  | some s =>
    have e : (search_line tun).data
        = ("  option domain-search \"".data ++ (s.data ++ ['"', ';'])) ++ ['\n'] := by
      simp only [search_line, hs, String.data_append, List.append_assoc]
      rfl
    rw [e]
    apply plain_lines_single
    · intro hm
      rcases List.mem_append.mp hm with hm | hm
      · exact absurd hm (by decide)
      · rcases List.mem_append.mp hm with hm | hm
        · exact hn s hs hm
        · exact absurd hm (by decide)
    · exact not_classless_of_head _ _ (by decide) (by decide)


set_option maxRecDepth 100000 in
theorem subnet_head_example_plain : plain_lines (subnet_head ![10, 0, 0, 5]).data :=
  ⟨["option rfc3442-classless-static-routes code 121 = array of integer 8;".data,
    "option ms-classless-static-routes code 249 = array of integer 8;".data,
    [],
    "subnet 10.0.0.0 netmask 255.255.255.0 \x7b".data,
    "  range 10.0.0.100 10.0.0.200;".data],
   by decide, by decide⟩

theorem dns_part_plain (tun : tunnel)
    (hn : tun.config.set_dns ≠ 0 → ∀ s, tun.ipv4.dns_suffix = some s → '\n' ∉ s.data) :
    plain_lines (if tun.config.set_dns ≠ 0 then write_dns "" tun else "").data := by
  split_ifs with hd
  · rw [write_dns_eq, String.empty_append, String.data_append]
    exact plain_lines_append _ _ (nameservers_line_plain tun) (search_line_plain tun (hn hd))
  · exact plain_lines_nil

/-- C11, as the code has it: for the interface address 10.0.0.5 and a tunnel state with no
split routes and routing requested, the generated text contains the line
`option routers 10.0.0.5;`, which is all that `write_routes` emits; and, as long as the
search suffix holds no line break, that line is a line of the text and no line of the
text is a classless-static-routes option line. -/
theorem write_dhcpd_config_no_split_routes (getifaddrs : Option (List ifaddrs))
    (tun : tunnel) (h : get_if_addr_octet getifaddrs tun = some ![10, 0, 0, 5])
    (hs : tun.ipv4.split_rt = []) (hr : tun.config.set_routes ≠ 0) :
    ∃ text, write_dhcpd_config true getifaddrs tun = (0, some text)
      ∧ text_contains text "  option routers 10.0.0.5;\n"
      ∧ write_routes "" tun ![10, 0, 0, 5] = "  option routers 10.0.0.5;\n"
      ∧ ((tun.config.set_dns ≠ 0 → ∀ s, tun.ipv4.dns_suffix = some s → '\n' ∉ s.data) →
          "  option routers 10.0.0.5;".data ∈ lines_of text.data
          ∧ ∀ l ∈ lines_of text.data, ¬ is_classless_line l) := by
  have hR : write_routes "" tun ![10, 0, 0, 5] = "  option routers 10.0.0.5;\n" := by
    rw [write_routes_no_split "" tun _ hs]
    decide
  have hx : ("  option routers 10.0.0.5;\n" : String).data
      = "  option routers 10.0.0.5;".data ++ ['\n'] := by decide
  have hdata : (subnet_head ![10, 0, 0, 5]
        ++ (if tun.config.set_dns ≠ 0 then write_dns "" tun else "")
        ++ (if tun.config.set_routes ≠ 0 then write_routes "" tun ![10, 0, 0, 5] else "")
        ++ "\x7d\n").data
      = ((subnet_head ![10, 0, 0, 5]).data
          ++ (if tun.config.set_dns ≠ 0 then write_dns "" tun else "").data)
        ++ ("  option routers 10.0.0.5;".data ++ ['\n']) ++ "\x7d\n".data := by
    rw [if_pos hr, hR]
    simp only [String.data_append, hx]
    rfl
  have hclose : plain_lines ("\x7d\n" : String).data :=
    ⟨[['\x7d']], by decide, by decide⟩
  refine ⟨_, write_dhcpd_config_resolved getifaddrs tun _ h, ?_, hR, ?_⟩
  · unfold text_contains
    rw [hdata, hx]
    exact ⟨_, _, rfl⟩
  · intro hn
    have hhead := plain_lines_append _ _ subnet_head_example_plain (dns_part_plain tun hn)
    rw [hdata]
    constructor
    · exact mem_lines_between _ _ _ hhead hclose (by decide)
    · apply plain_lines_lines
      exact plain_lines_append _ _
        (plain_lines_append _ _ hhead (plain_lines_single _ (by decide) (by decide))) hclose


/-- Witness for C11 as amended: `ppp0` resolved to 10.0.0.5, no split routes, routing
requested, search suffix `corp.example`. -/
theorem write_dhcpd_config_no_split_routes_witness :
    (get_if_addr_octet (some example_ifaddrs) (example_tunnel []) = some ![10, 0, 0, 5]
      ∧ (example_tunnel []).ipv4.split_rt = []
      ∧ (example_tunnel []).config.set_routes ≠ 0)
    ∧ ∃ text, write_dhcpd_config true (some example_ifaddrs) (example_tunnel [])
        = (0, some text)
      ∧ text_contains text "  option routers 10.0.0.5;\n"
      ∧ "  option routers 10.0.0.5;".data ∈ lines_of text.data
      ∧ ∀ l ∈ lines_of text.data, ¬ is_classless_line l := by
  obtain ⟨text, h1, h2, _, h4⟩ :=
    write_dhcpd_config_no_split_routes (some example_ifaddrs) (example_tunnel [])
      (by decide) rfl (by decide)
  have hn : (example_tunnel []).config.set_dns ≠ 0 →
      ∀ s, (example_tunnel []).ipv4.dns_suffix = some s → '\n' ∉ s.data := by
    intro _ s hs
    have e : s = "corp.example" := (Option.some.inj hs).symm
    rw [e]
    decide
  exact ⟨⟨by decide, rfl, by decide⟩, text, h1, h2, (h4 hn).1, (h4 hn).2⟩

set_option maxRecDepth 1000000 in
/-- C11, counterexample: with the interface address 10.0.0.5 and no split routes, a tunnel
state in which routing is not requested gives a text without any `option routers` line;
and a search suffix holding line breaks can bring a classless-static-routes line into the
text. -/
theorem write_dhcpd_config_no_routers :
    (get_if_addr_octet (some example_ifaddrs) example_tunnel_no_routing = some ![10, 0, 0, 5]
      ∧ example_tunnel_no_routing.ipv4.split_rt = []
      ∧ (write_dhcpd_config true (some example_ifaddrs) example_tunnel_no_routing).1 = 0
      ∧ ¬ text_contains
          ((write_dhcpd_config true (some example_ifaddrs) example_tunnel_no_routing).2.getD "")
          "option routers")
    ∧ (get_if_addr_octet (some example_ifaddrs) example_tunnel_suffix_lines
        = some ![10, 0, 0, 5]
      ∧ example_tunnel_suffix_lines.ipv4.split_rt = []
      ∧ ∃ l ∈ lines_of
          ((write_dhcpd_config true (some example_ifaddrs)
            example_tunnel_suffix_lines).2.getD "").data,
          is_classless_line l) := by
  decide

/-! ## The lines of the layout -/

theorem lines_with_nil (P : List Char → Prop) : lines_with P [] := ⟨[], rfl, by simp⟩

theorem lines_with_append (P : List Char → Prop) (a b : List Char) (ha : lines_with P a)
    (hb : lines_with P b) : lines_with P (a ++ b) := by
  obtain ⟨la, ea, pa⟩ := ha
  obtain ⟨lb, eb, pb⟩ := hb
  refine ⟨la ++ lb, by rw [ea, eb, join_lines_append], ?_⟩
  intro l hl
  rcases List.mem_append.mp hl with h | h
  · exact pa l h
  · exact pb l h

theorem lines_with_single (P : List Char → Prop) (l : List Char) (hn : '\n' ∉ l) (hc : P l) :
    lines_with P (l ++ ['\n']) :=
  ⟨[l], by simp [join_lines], by simpa using ⟨hn, hc⟩⟩

theorem inet_ntop_no_line_break (a : in_addr) : '\n' ∉ (inet_ntop a).data := by
  intro hm
  rcases inet_ntop_chars a _ hm with h | h
  · exact absurd h (by decide)
  · exact absurd h (by decide)

theorem u_no_line_break (n : Nat) : '\n' ∉ (u n).data :=
  fun hm => absurd (u_isDigit n _ hm) (by decide)

theorem nameservers_line_lines (tun : tunnel) :
    lines_with is_dns_line (nameservers_line tun).data := by
  by_cases h1 : tun.ipv4.ns1_addr = ![0, 0, 0, 0]
  · simp only [nameservers_line, if_pos h1]
    exact lines_with_nil _
  · have e : (nameservers_line tun).data
        = ("  option domain-name-servers ".data
            ++ ((inet_ntop tun.ipv4.ns1_addr).data
            ++ ((if tun.ipv4.ns2_addr = ![0, 0, 0, 0] then ""
                 else ", " ++ inet_ntop tun.ipv4.ns2_addr).data ++ [';']))) ++ ['\n'] := by
      simp only [nameservers_line, if_neg h1, String.data_append, List.append_assoc]
      rfl
    rw [e]
    apply lines_with_single
    · intro hm
      rcases List.mem_append.mp hm with hm | hm
      · exact absurd hm (by decide)
      · rcases List.mem_append.mp hm with hm | hm
        · exact inet_ntop_no_line_break _ hm
        · rcases List.mem_append.mp hm with hm | hm
          · split_ifs at hm
            · exact absurd hm (List.not_mem_nil _)
            · rw [String.data_append] at hm
              rcases List.mem_append.mp hm with hm | hm
              · exact absurd hm (by decide)
              · exact inet_ntop_no_line_break _ hm
          · exact absurd hm (by decide)
    · exact Or.inl (List.prefix_append _ _)

theorem search_line_lines (tun : tunnel)
    (hn : ∀ s, tun.ipv4.dns_suffix = some s → '\n' ∉ s.data) :
    lines_with is_dns_line (search_line tun).data := by
  cases hs : tun.ipv4.dns_suffix with
  | none =>
    simp only [search_line, hs]
    exact lines_with_nil _
  | some s =>
    have e : (search_line tun).data
        = ("  option domain-search \"".data ++ (s.data ++ ['"', ';'])) ++ ['\n'] := by
      simp only [search_line, hs, String.data_append, List.append_assoc]
      rfl
    rw [e]
    apply lines_with_single
    · intro hm
      rcases List.mem_append.mp hm with hm | hm
      · exact absurd hm (by decide)
      · rcases List.mem_append.mp hm with hm | hm
        · exact hn s hs hm
        · exact absurd hm (by decide)
    · exact Or.inr (List.prefix_append _ _)

theorem is_routing_line_append (l x : List Char) (h : is_routing_line l) :
    is_routing_line (l ++ x) := by
  rcases h with h | (h | h) | h
  · exact Or.inl (h.trans (List.prefix_append _ _))
  · exact Or.inr (Or.inl (Or.inl (h.trans (List.prefix_append _ _))))
  · exact Or.inr (Or.inl (Or.inr (h.trans (List.prefix_append _ _))))
  · exact Or.inr (Or.inr (h.trans (List.prefix_append _ _)))

theorem entries_lines (blanks : List Char) (hb : '\n' ∉ blanks)
    (hP : is_routing_line blanks) :
    ∀ (es : List (List Char)) (p : List Char), '\n' ∉ p → is_routing_line p →
      (∀ x ∈ es, '\n' ∉ x) →
      lines_with is_routing_line
        (p ++ (es.map (fun x => (',' :: '\n' :: blanks) ++ x)).flatten ++ [';', '\n']) := by
  intro es
  induction es with
  | nil =>
    intro p hp hPp _
    have e : p ++ (([] : List (List Char)).map (fun x => (',' :: '\n' :: blanks) ++ x)).flatten
        ++ [';', '\n'] = (p ++ [';']) ++ ['\n'] := by simp
    rw [e]
    apply lines_with_single
    · intro hm
      rcases List.mem_append.mp hm with hm | hm
      · exact hp hm
      · exact absurd hm (by decide)
    · exact is_routing_line_append _ _ hPp
  | cons x xs ih =>
    intro p hp hPp hx
    have e : p ++ ((x :: xs).map (fun x => (',' :: '\n' :: blanks) ++ x)).flatten
        ++ [';', '\n']
        = ((p ++ [',']) ++ ['\n'])
          ++ ((blanks ++ x) ++ (xs.map (fun x => (',' :: '\n' :: blanks) ++ x)).flatten
              ++ [';', '\n']) := by simp
    rw [e]
    apply lines_with_append
    · apply lines_with_single
      · intro hm
        rcases List.mem_append.mp hm with hm | hm
        · exact hp hm
        · exact absurd hm (by decide)
      · exact is_routing_line_append _ _ hPp
    · apply ih
      · intro hm
        rcases List.mem_append.mp hm with hm | hm
        · exact hb hm
        · exact hx x (by simp) hm
      · exact is_routing_line_append _ _ hP
      · intro y hy
        exact hx y (by simp [hy])

theorem kept_entries_no_line_break (tun : tunnel) (if_addr : in_addr) :
    ∀ e ∈ kept_entries tun if_addr, '\n' ∉ e.data := by
  intro e he hm
  simp only [kept_entries, List.mem_map] at he
  obtain ⟨route, _, rfl⟩ := he
  rcases format_route_chars route if_addr _ hm with h | h | h
  · exact absurd h (by decide)
  · exact absurd h (by decide)
  · exact absurd h (by decide)

theorem option_entries_lines (head sep : String) (blanks : List Char)
    (hsep : sep.data = ',' :: '\n' :: blanks) (hb : '\n' ∉ blanks)
    (hP : is_routing_line blanks) (hh : '\n' ∉ head.data) (hPh : is_routing_line head.data)
    (es : List String) (hne : es ≠ []) (hes : ∀ e ∈ es, '\n' ∉ e.data) :
    lines_with is_routing_line (head ++ sep.intercalate es ++ ";\n").data := by
  cases es with
  | nil => exact absurd rfl hne
  | cons e es =>
    have e1 : (head ++ sep.intercalate (e :: es) ++ ";\n").data
        = (head.data ++ e.data)
          ++ ((es.map String.data).map (fun x => (',' :: '\n' :: blanks) ++ x)).flatten
          ++ [';', '\n'] := by
      simp only [String.data_append, intercalate_data, hsep, List.map_map, List.append_assoc]
      rfl
    rw [e1]
    apply entries_lines blanks hb hP
    · intro hm
      rcases List.mem_append.mp hm with hm | hm
      · exact hh hm
      · exact hes e (by simp) hm
    · exact is_routing_line_append _ _ hPh
    · intro x hx
      obtain ⟨y, hy, rfl⟩ := List.mem_map.mp hx
      exact hes y (by simp [hy])

set_option maxRecDepth 100000 in
theorem write_routes_lines (tun : tunnel) (if_addr : in_addr) :
    lines_with is_routing_line (write_routes "" tun if_addr).data := by
  by_cases hs : tun.ipv4.split_rt = []
  · have e : (write_routes "" tun if_addr).data
        = ("  option routers ".data ++ ((u (if_addr 0).val).data ++ ['.']
            ++ (u (if_addr 1).val).data ++ ['.'] ++ (u (if_addr 2).val).data ++ ['.']
            ++ (u (if_addr 3).val).data ++ [';'])) ++ ['\n'] := by
      rw [write_routes_no_split "" tun if_addr hs]
      simp only [String.data_append, List.append_assoc]
      rfl
    rw [e]
    apply lines_with_single
    · intro hm
      simp only [List.mem_append] at hm
      rcases hm with hm | ((((((hm | hm) | hm) | hm) | hm) | hm) | hm) | hm
      · exact absurd hm (by decide)
      · exact u_no_line_break _ hm
      · exact absurd hm (by decide)
      · exact u_no_line_break _ hm
      · exact absurd hm (by decide)
      · exact u_no_line_break _ hm
      · exact absurd hm (by decide)
      · exact u_no_line_break _ hm
      · exact absurd hm (by decide)
    · exact Or.inl (List.prefix_append _ _)
  · by_cases hk : kept_routes tun = []
    · rw [write_routes_all_excluded "" tun if_addr hs hk]
      exact lines_with_nil _
    · have hne : kept_entries tun if_addr ≠ [] := by
        simpa [kept_entries] using hk
      have e : (write_routes "" tun if_addr).data
          = ("  option rfc3442-classless-static-routes "
              ++ rfc3442_separator.intercalate (kept_entries tun if_addr) ++ ";\n").data
            ++ ("  option ms-classless-static-routes "
              ++ ms_separator.intercalate (kept_entries tun if_addr) ++ ";\n").data := by
        rw [write_routes_kept "" tun if_addr hk]
        simp only [String.data_append, List.append_assoc]
        rfl
      rw [e]
      apply lines_with_append
      · exact option_entries_lines _ _ (List.replicate 41 ' ') (by decide) (by decide)
          (by decide) (by decide) (by decide) _ hne (kept_entries_no_line_break tun if_addr)
      · exact option_entries_lines _ _ (List.replicate 36 ' ') (by decide) (by decide)
          (by decide) (by decide) (by decide) _ hne (kept_entries_no_line_break tun if_addr)

theorem prefix_compatible (p q l : List Char) (hp : p <+: l) (hq : q <+: l) :
    p.take q.length = q.take p.length := by
  rw [List.prefix_iff_eq_take] at hp hq
  rw [hp, hq]
  simp only [List.take_take, List.length_take]
  congr 1
  omega

theorem is_dns_line_not_routing (l : List Char) (h : is_dns_line l) : ¬ is_routing_line l := by
  rintro (h2 | (h2 | h2) | h2) <;> rcases h with h | h <;>
    exact absurd (prefix_compatible _ _ l h h2) (by decide)

theorem is_dns_line_not_subnet (l : List Char) (h : is_dns_line l) : ¬ is_subnet_line l := by
  rintro ⟨h2, _⟩
  rcases h with h | h <;> exact absurd (prefix_compatible _ _ l h h2) (by decide)

theorem is_routing_line_not_subnet (l : List Char) (h : is_routing_line l) :
    ¬ is_subnet_line l := by
  rintro ⟨h2, _⟩
  rcases h with h | (h | h) | h <;> exact absurd (prefix_compatible _ _ l h h2) (by decide)

theorem is_dns_line_not_closing (l : List Char) (h : is_dns_line l) : l ≠ ['\x7d'] := by
  rintro rfl
  revert h
  decide

theorem is_routing_line_not_closing (l : List Char) (h : is_routing_line l) :
    l ≠ ['\x7d'] := by
  rintro rfl
  revert h
  decide

theorem not_dns_of_head (a x : List Char)
    (h1 : "  option domain-name-servers ".data.take a.length
      ≠ a.take "  option domain-name-servers ".data.length)
    (h2 : "  option domain-search \"".data.take a.length
      ≠ a.take "  option domain-search \"".data.length) :
    ¬ is_dns_line (a ++ x) := by
  rintro (h | h)
  · exact not_prefix_of_head _ a x h1 h
  · exact not_prefix_of_head _ a x h2 h

theorem not_routing_of_head (a x : List Char)
    (h1 : "  option routers ".data.take a.length ≠ a.take "  option routers ".data.length)
    (h2 : "  option rfc3442-classless-static-routes ".data.take a.length
      ≠ a.take "  option rfc3442-classless-static-routes ".data.length)
    (h3 : "  option ms-classless-static-routes ".data.take a.length
      ≠ a.take "  option ms-classless-static-routes ".data.length)
    (h4 : (List.replicate 36 ' ').take a.length ≠ a.take (List.replicate 36 ' ').length) :
    ¬ is_routing_line (a ++ x) := by
  rintro (h | h | h)
  · exact not_prefix_of_head _ a x h1 h
  · exact not_classless_of_head a x h2 h3 h
  · exact not_prefix_of_head _ a x h4 h

theorem subnet_head_join (if_addr : in_addr) :
    (subnet_head if_addr).data
      = join_lines
        ["option rfc3442-classless-static-routes code 121 = array of integer 8;".data,
         "option ms-classless-static-routes code 249 = array of integer 8;".data,
         [],
         "subnet ".data ++ (u (if_addr 0).val ++ "." ++ u (if_addr 1).val ++ "."
            ++ u (if_addr 2).val ++ ".0 netmask 255.255.255.0 \x7b").data,
         "  range ".data ++ (u (if_addr 0).val ++ "." ++ u (if_addr 1).val ++ "."
            ++ u (if_addr 2).val ++ ".100 " ++ u (if_addr 0).val ++ "." ++ u (if_addr 1).val
            ++ "." ++ u (if_addr 2).val ++ ".200;").data] := by
  simp only [subnet_head, join_lines, String.data_append, List.map_cons, List.map_nil,
    List.flatten_cons, List.flatten_nil, List.append_assoc, List.append_nil]
  rfl

theorem subnet_head_no_line_break (if_addr : in_addr) :
    ∀ l ∈ ["option rfc3442-classless-static-routes code 121 = array of integer 8;".data,
         "option ms-classless-static-routes code 249 = array of integer 8;".data,
         [],
         "subnet ".data ++ (u (if_addr 0).val ++ "." ++ u (if_addr 1).val ++ "."
            ++ u (if_addr 2).val ++ ".0 netmask 255.255.255.0 \x7b").data,
         "  range ".data ++ (u (if_addr 0).val ++ "." ++ u (if_addr 1).val ++ "."
            ++ u (if_addr 2).val ++ ".100 " ++ u (if_addr 0).val ++ "." ++ u (if_addr 1).val
            ++ "." ++ u (if_addr 2).val ++ ".200;").data], '\n' ∉ l := by
  have hu := u_no_line_break
  intro l hl
  simp only [List.mem_cons, List.mem_singleton, List.not_mem_nil, or_false] at hl
  rcases hl with rfl | rfl | rfl | rfl | rfl
  · decide
  · decide
  · decide
  · intro hm
    simp only [String.data_append, List.mem_append] at hm
    rcases hm with hm | (((((hm | hm) | hm) | hm) | hm) | hm)
    · exact absurd hm (by decide)
    · exact hu _ hm
    · exact absurd hm (by decide)
    · exact hu _ hm
    · exact absurd hm (by decide)
    · exact hu _ hm
    · exact absurd hm (by decide)
  · intro hm
    simp only [String.data_append, List.mem_append] at hm
    rcases hm with hm | (((((((((((hm | hm) | hm) | hm) | hm) | hm) | hm) | hm) | hm) | hm)
      | hm) | hm)
    · exact absurd hm (by decide)
    · exact hu _ hm
    · exact absurd hm (by decide)
    · exact hu _ hm
    · exact absurd hm (by decide)
    · exact hu _ hm
    · exact absurd hm (by decide)
    · exact hu _ hm
    · exact absurd hm (by decide)
    · exact hu _ hm
    · exact absurd hm (by decide)
    · exact hu _ hm
    · exact absurd hm (by decide)

theorem is_subnet_line_head (x : List Char) (h : " \x7b".data <:+ x) :
    is_subnet_line ("subnet ".data ++ x) := by
  refine ⟨List.prefix_append _ _, ?_⟩
  exact h.trans (List.suffix_append _ _)

theorem join_lines_eq_nil (ls : List (List Char)) (h : join_lines ls = []) : ls = [] := by
  cases ls with
  | nil => rfl
  | cons l ls => simp [join_lines] at h

/-- C14, as the code has it: for every resolved interface address and every tunnel state
the generated text is, in this order, the two option declarations (codes 121 and 249), an
empty line, the `subnet ... \x7b` line, the `range` line, what `write_dns` emits (only when
`set_dns` is requested), what `write_routes` emits (only when `set_routes` is requested),
and the closing line.  As long as the search suffix holds no line break, the lines of the
text are these five lines, then DNS option lines, then routing option lines, then the
closing line: exactly one line opens a subnet block and exactly one closes it, no line is
a DNS option line unless `set_dns` is requested and none is a routing option line unless
`set_routes` is requested.  As long as the search suffix holds no brace, the text has
exactly one opening and one closing brace. -/
theorem write_dhcpd_config_layout (getifaddrs : Option (List ifaddrs)) (tun : tunnel)
    (if_addr : in_addr) (h : get_if_addr_octet getifaddrs tun = some if_addr) :
    ∃ text dns routes : String,
      write_dhcpd_config true getifaddrs tun = (0, some text)
      ∧ text
        = "option rfc3442-classless-static-routes code 121 = array of integer 8;\n"
          ++ "option ms-classless-static-routes code 249 = array of integer 8;\n"
          ++ "\n"
          ++ ("subnet " ++ u (if_addr 0).val ++ "." ++ u (if_addr 1).val ++ "."
              ++ u (if_addr 2).val ++ ".0 netmask 255.255.255.0 \x7b\n")
          ++ ("  range " ++ u (if_addr 0).val ++ "." ++ u (if_addr 1).val ++ "."
              ++ u (if_addr 2).val ++ ".100 " ++ u (if_addr 0).val ++ "."
              ++ u (if_addr 1).val ++ "." ++ u (if_addr 2).val ++ ".200;\n")
          ++ dns ++ routes ++ "\x7d\n"
      ∧ dns = (if tun.config.set_dns ≠ 0 then nameservers_line tun ++ search_line tun else "")
      ∧ routes = (if tun.config.set_routes ≠ 0 then write_routes "" tun if_addr else "")
      ∧ ((tun.config.set_dns ≠ 0 → ∀ s, tun.ipv4.dns_suffix = some s → '\n' ∉ s.data) →
          ∃ dns_lines route_lines : List (List Char),
            lines_of text.data
              = ["option rfc3442-classless-static-routes code 121 = array of integer 8;".data,
                 "option ms-classless-static-routes code 249 = array of integer 8;".data,
                 [],
                 "subnet ".data ++ (u (if_addr 0).val ++ "." ++ u (if_addr 1).val ++ "."
                    ++ u (if_addr 2).val ++ ".0 netmask 255.255.255.0 \x7b").data,
                 "  range ".data ++ (u (if_addr 0).val ++ "." ++ u (if_addr 1).val ++ "."
                    ++ u (if_addr 2).val ++ ".100 " ++ u (if_addr 0).val ++ "."
                    ++ u (if_addr 1).val ++ "." ++ u (if_addr 2).val ++ ".200;").data]
                ++ dns_lines ++ route_lines ++ [['\x7d'], []]
            ∧ dns.data = join_lines dns_lines
            ∧ routes.data = join_lines route_lines
            ∧ (∀ l ∈ dns_lines, is_dns_line l)
            ∧ (∀ l ∈ route_lines, is_routing_line l)
            ∧ (lines_of text.data).countP (fun l => decide (is_subnet_line l)) = 1
            ∧ (lines_of text.data).count ['\x7d'] = 1
            ∧ (tun.config.set_dns = 0 → ∀ l ∈ lines_of text.data, ¬ is_dns_line l)
            ∧ (tun.config.set_routes = 0 → ∀ l ∈ lines_of text.data, ¬ is_routing_line l))
      ∧ ((tun.config.set_dns ≠ 0 → ∀ s, tun.ipv4.dns_suffix = some s →
            '\x7b' ∉ s.data ∧ '\x7d' ∉ s.data) →
          text.data.count '\x7b' = 1 ∧ text.data.count '\x7d' = 1) := by
  have hdns : (if tun.config.set_dns ≠ 0 then write_dns "" tun else "")
      = (if tun.config.set_dns ≠ 0 then nameservers_line tun ++ search_line tun else "") := by
    split_ifs
    · rw [write_dns_eq, String.empty_append]
    · rfl
  refine ⟨_, _, _, write_dhcpd_config_resolved getifaddrs tun if_addr h, ?_, rfl, rfl, ?_, ?_⟩
  · rw [hdns, subnet_head_lines]
  · intro hn
    have hD : lines_with is_dns_line
        (if tun.config.set_dns ≠ 0 then nameservers_line tun ++ search_line tun else "").data := by
      split_ifs with hd
      · rw [String.data_append]
        exact lines_with_append _ _ _ (nameservers_line_lines tun)
          (search_line_lines tun (hn hd))
      · exact lines_with_nil _
    have hR : lines_with is_routing_line
        (if tun.config.set_routes ≠ 0 then write_routes "" tun if_addr else "").data := by
      split_ifs
      · exact write_routes_lines tun if_addr
      · exact lines_with_nil _
    obtain ⟨dl, hdl, pdl⟩ := hD
    obtain ⟨rl, hrl, prl⟩ := hR
    have hhead := subnet_head_no_line_break if_addr
    have hlines : lines_of (subnet_head if_addr
          ++ (if tun.config.set_dns ≠ 0 then write_dns "" tun else "")
          ++ (if tun.config.set_routes ≠ 0 then write_routes "" tun if_addr else "")
          ++ "\x7d\n").data
        = ["option rfc3442-classless-static-routes code 121 = array of integer 8;".data,
           "option ms-classless-static-routes code 249 = array of integer 8;".data,
           [],
           "subnet ".data ++ (u (if_addr 0).val ++ "." ++ u (if_addr 1).val ++ "."
              ++ u (if_addr 2).val ++ ".0 netmask 255.255.255.0 \x7b").data,
           "  range ".data ++ (u (if_addr 0).val ++ "." ++ u (if_addr 1).val ++ "."
              ++ u (if_addr 2).val ++ ".100 " ++ u (if_addr 0).val ++ "."
              ++ u (if_addr 1).val ++ "." ++ u (if_addr 2).val ++ ".200;").data]
          ++ dl ++ rl ++ [['\x7d'], []] := by
      have hclose : ("\x7d\n" : String).data = join_lines [['\x7d']] := by decide
      rw [hdns, String.data_append, String.data_append, String.data_append,
        subnet_head_join, hdl, hrl, hclose, ← join_lines_append, ← join_lines_append,
        ← join_lines_append, ← List.append_nil (join_lines _), lines_of_join]
      · simp [lines_of]
      · intro l hl
        rcases List.mem_append.mp hl with hl | hl
        · rcases List.mem_append.mp hl with hl | hl
          · rcases List.mem_append.mp hl with hl | hl
            · exact hhead l hl
            · exact (pdl l hl).1
          · exact (prl l hl).1
        · have : l = ['\x7d'] := by simpa using hl
          rw [this]
          decide
    have hsub : " \x7b".data <:+ (u (if_addr 0).val ++ "." ++ u (if_addr 1).val ++ "."
        ++ u (if_addr 2).val ++ ".0 netmask 255.255.255.0 \x7b").data := by
      refine ⟨(u (if_addr 0).val ++ "." ++ u (if_addr 1).val ++ "."
        ++ u (if_addr 2).val).data ++ ".0 netmask 255.255.255.0".data, ?_⟩
      simp only [String.data_append, List.append_assoc]
      rfl
    have hdl0 : tun.config.set_dns = 0 → dl = [] := by
      intro h0
      apply join_lines_eq_nil
      rw [← hdl, if_neg (by simpa using h0)]
    have hrl0 : tun.config.set_routes = 0 → rl = [] := by
      intro h0
      apply join_lines_eq_nil
      rw [← hrl, if_neg (by simpa using h0)]
    refine ⟨dl, rl, hlines, ?_, hrl, fun l hl => (pdl l hl).2, fun l hl => (prl l hl).2,
      ?_, ?_, ?_, ?_⟩
    · exact hdl
    · rw [hlines]
      simp only [List.countP_append, List.countP_cons, List.countP_nil]
      have c1 : List.countP (fun l => decide (is_subnet_line l)) dl = 0 := by
        rw [List.countP_eq_zero]
        intro l hl
        simpa using is_dns_line_not_subnet l (pdl l hl).2
      have c2 : List.countP (fun l => decide (is_subnet_line l)) rl = 0 := by
        rw [List.countP_eq_zero]
        intro l hl
        simpa using is_routing_line_not_subnet l (prl l hl).2
      have c3 : decide (is_subnet_line ("subnet ".data ++ (u (if_addr 0).val ++ "."
          ++ u (if_addr 1).val ++ "." ++ u (if_addr 2).val
          ++ ".0 netmask 255.255.255.0 \x7b").data)) = true :=
        decide_eq_true (is_subnet_line_head _ hsub)
      have c4 : decide (is_subnet_line ("  range ".data ++ (u (if_addr 0).val ++ "."
          ++ u (if_addr 1).val ++ "." ++ u (if_addr 2).val ++ ".100 " ++ u (if_addr 0).val
          ++ "." ++ u (if_addr 1).val ++ "." ++ u (if_addr 2).val ++ ".200;").data)) = false :=
        decide_eq_false (fun hh => not_prefix_of_head _ _ _ (by decide) hh.1)
      have c5 : decide (is_subnet_line
          "option rfc3442-classless-static-routes code 121 = array of integer 8;".data)
          = false := by decide
      have c6 : decide (is_subnet_line
          "option ms-classless-static-routes code 249 = array of integer 8;".data)
          = false := by decide
      have c7 : decide (is_subnet_line []) = false := by decide
      have c8 : decide (is_subnet_line ['\x7d']) = false := by decide
      rw [c1, c2, c3, c4, c5, c6, c7, c8]
      rfl
    · rw [hlines]
      simp only [List.count_append]
      have c1 : List.count ['\x7d'] dl = 0 := by
        rw [List.count_eq_zero]
        intro hl
        exact is_dns_line_not_closing _ (pdl _ hl).2 rfl
      have c2 : List.count ['\x7d'] rl = 0 := by
        rw [List.count_eq_zero]
        intro hl
        exact is_routing_line_not_closing _ (prl _ hl).2 rfl
      have c3 : List.count ['\x7d']
          ["option rfc3442-classless-static-routes code 121 = array of integer 8;".data,
           "option ms-classless-static-routes code 249 = array of integer 8;".data,
           [],
           "subnet ".data ++ (u (if_addr 0).val ++ "." ++ u (if_addr 1).val ++ "."
              ++ u (if_addr 2).val ++ ".0 netmask 255.255.255.0 \x7b").data,
           "  range ".data ++ (u (if_addr 0).val ++ "." ++ u (if_addr 1).val ++ "."
              ++ u (if_addr 2).val ++ ".100 " ++ u (if_addr 0).val ++ "."
              ++ u (if_addr 1).val ++ "." ++ u (if_addr 2).val ++ ".200;").data] = 0 := by
        rw [List.count_eq_zero]
        intro hl
        simp only [List.mem_cons, List.mem_singleton, List.not_mem_nil, or_false] at hl
        rcases hl with hl | hl | hl | hl | hl
        · exact absurd hl (by decide)
        · exact absurd hl (by decide)
        · exact absurd hl (by decide)
        · have e := congrArg List.head? hl
          simp at e
        · have e := congrArg List.head? hl
          simp at e
      rw [c1, c2, c3]
      rfl
    · intro h0 l hl
      rw [hlines, hdl0 h0] at hl
      simp only [List.append_nil, List.mem_append, List.mem_cons, List.mem_singleton,
        List.not_mem_nil, or_false] at hl
      rcases hl with ((rfl | rfl | rfl | rfl | rfl) | hl) | (rfl | rfl)
      · decide
      · decide
      · decide
      · exact not_dns_of_head _ _ (by decide) (by decide)
      · exact not_dns_of_head _ _ (by decide) (by decide)
      · exact fun hd => is_dns_line_not_routing l hd (prl l hl).2
      · decide
      · decide
    · intro h0 l hl
      rw [hlines, hrl0 h0] at hl
      simp only [List.append_nil, List.mem_append, List.mem_cons, List.mem_singleton,
        List.not_mem_nil, or_false] at hl
      rcases hl with ((rfl | rfl | rfl | rfl | rfl) | hl) | (rfl | rfl)
      · decide
      · decide
      · decide
      · exact not_routing_of_head _ _ (by decide) (by decide) (by decide) (by decide)
      · exact not_routing_of_head _ _ (by decide) (by decide) (by decide) (by decide)
      · exact is_dns_line_not_routing l (pdl l hl).2
      · decide
      · decide
  · intro hb
    have hplain1 : ¬ plain_char '\x7b' := by unfold plain_char; decide
    have hplain2 : ¬ plain_char '\x7d' := by unfold plain_char; decide
    have hr : ∀ c, ¬ plain_char c →
        (if tun.config.set_routes ≠ 0 then write_routes "" tun if_addr else "").data.count c
          = 0 := by
      intro c hc
      split_ifs
      · exact count_zero_of_plain _ c (write_routes_chars tun if_addr) hc
      · rfl
    have hd : ∀ c, c.isDigit = false → c ∉ "  option domain-name-servers .,;\n".data →
        c ∉ "  option domain-search \"\";\n".data →
        (tun.config.set_dns ≠ 0 → ∀ s, tun.ipv4.dns_suffix = some s → c ∉ s.data) →
        (if tun.config.set_dns ≠ 0 then write_dns "" tun else "").data.count c = 0 := by
      intro c h1 h2 h3 h4
      rw [hdns]
      split_ifs with hset
      · rw [String.data_append, List.count_append, nameservers_line_count tun c h1 h2,
          search_line_count tun c h3 (h4 hset)]
      · rfl
    have hb1 := subnet_head_braces if_addr
    have hc1 : ("\x7d\n" : String).data.count '\x7b' = 0 := by decide
    have hc2 : ("\x7d\n" : String).data.count '\x7d' = 1 := by decide
    constructor
    · simp only [String.data_append, List.count_append]
      rw [hb1.1, hr _ hplain1, hc1,
        hd _ (by decide) (by decide) (by decide) (fun hs s e => (hb hs s e).1)]
    · simp only [String.data_append, List.count_append]
      rw [hb1.2, hr _ hplain2, hc2,
        hd _ (by decide) (by decide) (by decide) (fun hs s e => (hb hs s e).2)]

set_option maxRecDepth 1000000 in
/-- Witness for C14 as amended: `ppp0` resolved to 10.0.0.5, DNS and routing requested,
the search suffix `corp.example` and two split routes. -/
theorem write_dhcpd_config_layout_witness :
    (get_if_addr_octet (some example_ifaddrs)
        (example_tunnel [example_route_16, example_route_24]) = some example_if_addr
      ∧ ((example_tunnel [example_route_16, example_route_24]).config.set_dns ≠ 0 →
          ∀ s, (example_tunnel [example_route_16, example_route_24]).ipv4.dns_suffix = some s →
            '\n' ∉ s.data)
      ∧ ((example_tunnel [example_route_16, example_route_24]).config.set_dns ≠ 0 →
          ∀ s, (example_tunnel [example_route_16, example_route_24]).ipv4.dns_suffix = some s →
            '\x7b' ∉ s.data ∧ '\x7d' ∉ s.data))
    ∧ ∃ text : String,
      write_dhcpd_config true (some example_ifaddrs)
          (example_tunnel [example_route_16, example_route_24]) = (0, some text)
      ∧ lines_of text.data
        = ["option rfc3442-classless-static-routes code 121 = array of integer 8;".data,
           "option ms-classless-static-routes code 249 = array of integer 8;".data,
           [],
           "subnet 10.0.0.0 netmask 255.255.255.0 \x7b".data,
           "  range 10.0.0.100 10.0.0.200;".data,
           "  option domain-name-servers 8.8.8.8, 1.1.1.1;".data,
           "  option domain-search \"corp.example\";".data,
           "  option rfc3442-classless-static-routes 16, 10, 1, 10, 0, 0, 5,".data,
           "                                         24, 192, 168, 7, 10, 0, 0, 5;".data,
           "  option ms-classless-static-routes 16, 10, 1, 10, 0, 0, 5,".data,
           "                                    24, 192, 168, 7, 10, 0, 0, 5;".data,
           ['\x7d'],
           []]
      ∧ (lines_of text.data).countP (fun l => decide (is_subnet_line l)) = 1
      ∧ (lines_of text.data).count ['\x7d'] = 1
      ∧ text.data.count '\x7b' = 1
      ∧ text.data.count '\x7d' = 1 := by
  have hn : (example_tunnel [example_route_16, example_route_24]).config.set_dns ≠ 0 →
      ∀ s, (example_tunnel [example_route_16, example_route_24]).ipv4.dns_suffix = some s →
        '\n' ∉ s.data := by
    intro _ s hs
    have e : s = "corp.example" := (Option.some.inj hs).symm
    rw [e]
    decide
  have hb : (example_tunnel [example_route_16, example_route_24]).config.set_dns ≠ 0 →
      ∀ s, (example_tunnel [example_route_16, example_route_24]).ipv4.dns_suffix = some s →
        '\x7b' ∉ s.data ∧ '\x7d' ∉ s.data := by
    intro _ s hs
    have e : s = "corp.example" := (Option.some.inj hs).symm
    rw [e]
    decide
  obtain ⟨text, dns, routes, h1, _, _, _, hl, hc⟩ :=
    write_dhcpd_config_layout (some example_ifaddrs)
      (example_tunnel [example_route_16, example_route_24]) example_if_addr (by decide)
  obtain ⟨dns_lines, route_lines, _, _, _, _, _, hs1, hs2, _, _⟩ := hl hn
  have ht : text = (write_dhcpd_config true (some example_ifaddrs)
      (example_tunnel [example_route_16, example_route_24])).2.getD "" := by
    rw [h1]
    rfl
  refine ⟨⟨by decide, hn, hb⟩, text, h1, ?_, hs1, hs2, (hc hb).1, (hc hb).2⟩
  rw [ht]
  decide

set_option maxRecDepth 1000000 in
/-- C14, counterexample: with DNS requested, routing not requested and a search suffix that
holds line breaks, a closing brace, a subnet line and a routers line, the generated text
has two lines opening a subnet block and two closing lines, and it has an `option routers`
line although `set_routes` is 0. -/
theorem write_dhcpd_config_two_subnet_blocks :
    get_if_addr_octet (some example_ifaddrs) example_tunnel_suffix_block = some example_if_addr
    ∧ example_tunnel_suffix_block.config.set_routes = 0
    ∧ (write_dhcpd_config true (some example_ifaddrs) example_tunnel_suffix_block).1 = 0
    ∧ (lines_of ((write_dhcpd_config true (some example_ifaddrs)
          example_tunnel_suffix_block).2.getD "").data).countP
        (fun l => decide (is_subnet_line l)) = 2
    ∧ (lines_of ((write_dhcpd_config true (some example_ifaddrs)
          example_tunnel_suffix_block).2.getD "").data).count ['\x7d'] = 2
    ∧ "  option routers 10.9.9.1;".data
        ∈ lines_of ((write_dhcpd_config true (some example_ifaddrs)
            example_tunnel_suffix_block).2.getD "").data
    ∧ is_routing_line "  option routers 10.9.9.1;".data
    ∧ ((write_dhcpd_config true (some example_ifaddrs)
          example_tunnel_suffix_block).2.getD "").data.count '\x7b' = 2 := by
  decide

end Dhcp
